import Mathlib

/-!
Verification of the PipeWire v0 protocol compatibility layer
(`src/modules/module-protocol-native/v0/protocol-native.c`): the per-client
type-table translation and the bidirectional POD tree remap between the
legacy v0 wire vocabulary and the current v2 vocabulary.

The embedding works at the structural level the remap walkers operate on:
PODs are trees, and each C function that writes into a `spa_pod_builder` is
modelled as returning the list of pods it appends to the builder stream.
Machine integers are `Nat`; `SPA_ID_INVALID` is the literal 4294967295.
-/

namespace PipewireV0

/-- SPA_ID_INVALID (spa/utils/defs.h). -/
def SPA_ID_INVALID : Nat := 4294967295

/-- SPA_TYPE_OBJECT_Format (spa/utils/type.h). -/
def SPA_TYPE_OBJECT_Format : Nat := 0x40003

/-- SPA_TYPE_COMMAND_Node (spa/utils/type.h). -/
def SPA_TYPE_COMMAND_Node : Nat := 0x30002

/-- SPA_FORMAT_mediaType (spa/param/format.h). -/
def SPA_FORMAT_mediaType : Nat := 1

/-- SPA_FORMAT_mediaSubtype (spa/param/format.h). -/
def SPA_FORMAT_mediaSubtype : Nat := 2

/-- enum spa_choice_type (spa/pod/pod.h). -/
def SPA_CHOICE_None : Nat := 0

def SPA_CHOICE_Range : Nat := 1

def SPA_CHOICE_Step : Nat := 2

def SPA_CHOICE_Enum : Nat := 3

def SPA_CHOICE_Flags : Nat := 4

/-- Legacy range/flag bits of `struct spa_pod_prop_body0`
(protocol-native.c:283-294). -/
def SPA_POD_PROP0_RANGE_NONE : Nat := 0

def SPA_POD_PROP0_RANGE_MIN_MAX : Nat := 1

def SPA_POD_PROP0_RANGE_STEP : Nat := 2

def SPA_POD_PROP0_RANGE_ENUM : Nat := 3

def SPA_POD_PROP0_RANGE_FLAGS : Nat := 4

def SPA_POD_PROP0_RANGE_MASK : Nat := 15

def SPA_POD_PROP0_FLAG_UNSET : Nat := 16

/-- One row of the global type table `type_map` (typemap.h, part of this v0
module but not under src/): the legacy v0 type string, the optional v2 full
name (NULL allowed), and the v2 numeric id. The row's position in the table
is the "v0 index". -/
structure TypeRow where
  typeStr : String
  name : Option String
  id : Nat
deriving DecidableEq

abbrev TypeTable := List TypeRow

/-- Modelled from the spec: the per-client handle (spec §6) mapping the
peer's v0 slot indices to global-type-table rows. The C stores this in
`client->compat_v2->types`, a `struct pw_map` (pipewire/map.h, not under
src/); `install_v0` shadows older entries and `lookup_v0` finds the newest,
matching overwrite-at-slot followed by lookup. -/
abbrev ClientTypes := List (Nat × Nat)

def lookup_v0 (m : ClientTypes) (slot : Nat) : Option Nat :=
  match m with
  | [] => none
  | (k, v) :: rest => if k = slot then some v else lookup_v0 rest slot

def install_v0 (m : ClientTypes) (slot : Nat) (row : Nat) : ClientTypes :=
  (slot, row) :: m

/-- pw_protocol_native0_find_type (protocol-native.c:39-48): index of the
first global-table row whose v0 type string matches, else SPA_ID_INVALID. -/
def pw_protocol_native0_find_type (tm : TypeTable) (ty : String) : Nat :=
  match tm.findIdx? (fun r => r.typeStr == ty) with
  | some i => i
  | none => SPA_ID_INVALID

/-- pw_protocol_native0_type_from_v2 (protocol-native.c:245-260): look up the
v0 slot in the client's per-client map; a missing slot or a stored row index
at or beyond the table length yields SPA_ID_INVALID, otherwise the row's v2
id. (Despite its name this function translates v0 slots to v2 ids; the
spec calls it `from_v0`.) -/
def pw_protocol_native0_type_from_v2 (m : ClientTypes) (tm : TypeTable)
    (ty : Nat) : Nat :=
  match lookup_v0 m ty with
  | none => SPA_ID_INVALID
  | some index =>
    match tm[index]? with
    | some row => row.id
    | none => SPA_ID_INVALID

/-- Modelled from the spec: the external identifier-lookup collaborator
(spec §1): a `struct spa_type_info` entry (spa/utils/type-info.h, not under
src/) with its numeric type, full name, and optional nested value table.
NULL and empty value tables differ: `spa_debug_type_find` substitutes the
root table for a NULL argument. -/
inductive TypeInfo where
  | mk (ty : Nat) (name : String) (vals : Option (List TypeInfo))

def TypeInfo.ty : TypeInfo → Nat
  | .mk t _ _ => t

def TypeInfo.name : TypeInfo → String
  | .mk _ n _ => n

def TypeInfo.vals : TypeInfo → Option (List TypeInfo)
  | .mk _ _ v => v

mutual

/-- Modelled from the spec: one step of spa_debug_type_find's depth-first
search (spa/debug/types.h, not under src/): an entry matches on its type,
else its nested value table is searched. -/
def findInfoEntry : TypeInfo → Nat → Option TypeInfo
  | .mk t n v, target =>
    if t = target then some (.mk t n v) else findInfoVals v target

/-- Modelled from the spec: the depth-first search of spa_debug_type_find
over one non-NULL type-info table: each entry (with its subtree) is tried
in order. -/
def findInfoList : List TypeInfo → Nat → Option TypeInfo
  | [], _ => none
  | i :: rest, target =>
    match findInfoEntry i target with
    | some r => some r
    | none => findInfoList rest target

/-- Descent into an entry's optional nested value table; a NULL table has
nothing to search (the root substitution happens only at the outer
spa_debug_type_find call; the recursion guards with `info->values &&`). -/
def findInfoVals : Option (List TypeInfo) → Nat → Option TypeInfo
  | none, _ => none
  | some l, target => findInfoList l target

end

/-- Modelled from the spec: spa_debug_type_find, which substitutes the root
table for a NULL info argument before searching. -/
def spa_debug_type_find (root : List TypeInfo) (info : Option (List TypeInfo))
    (target : Nat) : Option TypeInfo :=
  findInfoList (info.getD root) target

/-- Modelled from the spec: spa_debug_type_find_name. -/
def spa_debug_type_find_name (root : List TypeInfo)
    (info : Option (List TypeInfo)) (target : Nat) : Option String :=
  (spa_debug_type_find root info target).map TypeInfo.name

/-- pw_protocol_native0_type_to_v2 (protocol-native.c:262-279): find the full
name of the v2 id in the given type-info table, then return the index of the
first global-table row carrying that name (rows with NULL names never
match); SPA_ID_INVALID when either step fails. (Despite its name this
translates v2 ids to v0 row indexes; the spec calls it `from_v2`.) -/
def pw_protocol_native0_type_to_v2 (root : List TypeInfo) (tm : TypeTable)
    (info : Option (List TypeInfo)) (ty : Nat) : Nat :=
  match spa_debug_type_find_name root info ty with
  | none => SPA_ID_INVALID
  | some nm =>
    match tm.findIdx? (fun r => r.name == some nm) with
    | some i => i
    | none => SPA_ID_INVALID

/-- A POD tree at the structural level of the remap walkers (spec §3).

The `choicePod` constructor covers both readings of the Choice wire tag:
a v2 Choice body (choice type, flags, first value with header, alternative
bodies) and a legacy v0 Prop body (key, flags, value with header,
alternative bodies) share one layout, which is exactly the pun
remap_to_v2 exploits when it emits a v0 Prop via
`spa_pod_builder_push_choice(builder, key, flags)`. The first field is the
choice type in the v2 reading and the property key in the v0 reading.

`prop2Pod` is a v2 object-body property entry (key, flags, value):
on the wire these are not tagged pods but they are delimited stream
elements of an Object body, and `spa_pod_builder_prop` followed by one
value builds exactly one of them. -/
inductive Pod where
  | nonePod
  | boolPod (b : Bool)
  | idPod (v : Nat)
  | intPod (v : Int)
  | longPod (v : Int)
  | stringPod (s : String)
  | rectanglePod (w h : Nat)
  | fractionPod (num denom : Nat)
  | arrayPod (childType : Nat) (elems : List Pod)
  | structPod (body : List Pod)
  | objectPod (otype oid : Nat) (body : List Pod)
  | choicePod (first flags : Nat) (value : Pod) (alts : List Pod)
  | prop2Pod (key flags : Nat) (value : Pod)

/-- Modelled from the spec (§4.C `get_values`; spa_pod_get_values in
spa/pod/iter.h, not under src/): a Choice yields its child value, the
alternative bodies and the choice type; any other pod is viewed as a single
value with choice None. -/
def spa_pod_get_values : Pod → Pod × List Pod × Nat
  | .choicePod ct _ v alts => (v, alts, ct)
  | p => (p, [], SPA_CHOICE_None)

/-- Reading a POD body as a 32-bit id, as the remap walkers do for Choice
and Prop alternative bodies. The v0 wire guarantees alternatives share the
value's type and size (invariant I4), so for well-formed input this only
ever sees `idPod`; 0 stands for the unspecified raw read on other shapes,
which the theorems' hypotheses exclude. -/
def idPayload : Pod → Nat
  | .idPod v => v
  | _ => 0

/-- The range-bits → choice-type switch of remap_from_v2
(protocol-native.c:334-351); unlisted range values fall into the default
(None) arm, which the C shares with the RANGE_NONE case. -/
def rangeToChoice (bits : Nat) : Nat :=
  if bits = SPA_POD_PROP0_RANGE_MIN_MAX then SPA_CHOICE_Range
  else if bits = SPA_POD_PROP0_RANGE_STEP then SPA_CHOICE_Step
  else if bits = SPA_POD_PROP0_RANGE_ENUM then SPA_CHOICE_Enum
  else if bits = SPA_POD_PROP0_RANGE_FLAGS then SPA_CHOICE_Flags
  else SPA_CHOICE_None

mutual

/-- remap_from_v2 (protocol-native.c:313-429): the v0 → v2 tree rewrite.
Returns the pods the call appends to the builder stream; tags without a
case in the C switch fall into `default: break;` and contribute nothing.
In the Choice (legacy Prop) case the C reads the key and flags, emits a
property header with flags 0, pushes a choice whose type derives from the
range bits (downgraded to None when the UNSET bit is absent), then either
translates an Id default and each alternative element-wise or copies the
default and alternatives raw. -/
def remap_from_v2 (m : ClientTypes) (tm : TypeTable) : Pod → List Pod
  | .idPod v => [.idPod (pw_protocol_native0_type_from_v2 m tm v)]
  | .choicePod key flags value alts =>
    let key2 := pw_protocol_native0_type_from_v2 m tm key
    let ct0 := rangeToChoice (flags % 16)
    let ct := if flags.testBit 4 then ct0 else SPA_CHOICE_None
    match value with
    | .idPod x =>
      [.prop2Pod key2 0 (.choicePod ct 0
        (.idPod (pw_protocol_native0_type_from_v2 m tm x))
        (alts.map (fun a =>
          Pod.idPod (pw_protocol_native0_type_from_v2 m tm (idPayload a)))))]
    | v => [.prop2Pod key2 0 (.choicePod ct 0 v alts)]
  | .objectPod t i body =>
    let t2 := pw_protocol_native0_type_from_v2 m tm i
    [.objectPod t2 (pw_protocol_native0_type_from_v2 m tm t)
      (remap_from_v2_obj m tm t2 0 body)]
  | .structPod body => [.structPod (remap_from_v2_list m tm body)]
  | _ => []

/-- The SPA_POD_FOREACH loop of remap_from_v2's Struct arm. -/
def remap_from_v2_list (m : ClientTypes) (tm : TypeTable) :
    List Pod → List Pod
  | [] => []
  | p :: ps => remap_from_v2 m tm p ++ remap_from_v2_list m tm ps

/-- The SPA_POD_OBJECT_BODY_FOREACH0 loop of remap_from_v2's Object arm
(protocol-native.c:386-409). `ot` is the translated object type; while it
equals Format and fewer than two Id children have been seen, an Id child
becomes the mediaType (first) or mediaSubtype (second) property with a
translated payload, and a non-Id child is skipped without advancing the
count; all other children recurse through remap_from_v2. -/
def remap_from_v2_obj (m : ClientTypes) (tm : TypeTable) (ot count : Nat) :
    List Pod → List Pod
  | [] => []
  | p :: ps =>
    if ot = SPA_TYPE_OBJECT_Format ∧ count < 2 then
      match p with
      | .idPod x =>
        let x2 := pw_protocol_native0_type_from_v2 m tm x
        (if count = 0 then [Pod.prop2Pod SPA_FORMAT_mediaType 0 (.idPod x2)]
         else [Pod.prop2Pod SPA_FORMAT_mediaSubtype 0 (.idPod x2)]) ++
          remap_from_v2_obj m tm ot (count + 1) ps
      | _ => remap_from_v2_obj m tm ot count ps
    else remap_from_v2 m tm p ++ remap_from_v2_obj m tm ot count ps

end

/-- One iteration of remap_to_v2's property loop (protocol-native.c:469-525),
emitting the pods one object-body entry contributes. `infoP` is the object
type's value table (or the caller's table when the type is unknown); `t` is
the original (v2) object type. The property is viewed through
spa_pod_get_values; Format's mediaType and mediaSubtype properties emit a
bare translated Id (or are skipped when their value is not an Id), and every
other property emits a legacy Prop — built as a choice whose first body word
is the translated key — with range bits synthesised from the choice type,
the UNSET bit OR'd in except for None, and the default plus alternatives
translated element-wise when they are Ids or copied raw otherwise. Only
property entries occur in well-formed v2 object bodies (invariant I3); the
embedding skips anything else, where the C would reinterpret raw bytes. -/
def remap_to_v2_prop (tm : TypeTable) (root : List TypeInfo)
    (infoP : Option (List TypeInfo)) (t : Nat) : Pod → List Pod
  | .prop2Pod k _ v =>
    let ii := spa_debug_type_find root infoP k
    let iiCtx : Option (List TypeInfo) := match ii with
      | some x => x.vals
      | none => none
    let gv := spa_pod_get_values v
    if t = SPA_TYPE_OBJECT_Format ∧
        (k = SPA_FORMAT_mediaType ∨ k = SPA_FORMAT_mediaSubtype) then
      match gv.1 with
      | .idPod x => [Pod.idPod (pw_protocol_native0_type_to_v2 root tm iiCtx x)]
      | _ => []
    else
      let flags :=
        if gv.2.2 = SPA_CHOICE_None then SPA_POD_PROP0_RANGE_NONE
        else if gv.2.2 = SPA_CHOICE_Range then
          SPA_POD_PROP0_RANGE_MIN_MAX ||| SPA_POD_PROP0_FLAG_UNSET
        else if gv.2.2 = SPA_CHOICE_Step then
          SPA_POD_PROP0_RANGE_STEP ||| SPA_POD_PROP0_FLAG_UNSET
        else if gv.2.2 = SPA_CHOICE_Enum then
          SPA_POD_PROP0_RANGE_ENUM ||| SPA_POD_PROP0_FLAG_UNSET
        else if gv.2.2 = SPA_CHOICE_Flags then
          SPA_POD_PROP0_RANGE_FLAGS ||| SPA_POD_PROP0_FLAG_UNSET
        else 0
      let key2 := pw_protocol_native0_type_to_v2 root tm infoP k
      match gv.1 with
      | .idPod x =>
        [Pod.choicePod key2 flags
          (.idPod (pw_protocol_native0_type_to_v2 root tm iiCtx x))
          (gv.2.1.map (fun a =>
            Pod.idPod (pw_protocol_native0_type_to_v2 root tm iiCtx (idPayload a))))]
      | hd => [Pod.choicePod key2 flags hd gv.2.1]
  | _ => []

/-- The SPA_POD_OBJECT_BODY_FOREACH loop of remap_to_v2's Object arm
(protocol-native.c:469-525): each body entry contributes the pods
remap_to_v2_prop emits for it. -/
def remap_to_v2_obj (tm : TypeTable) (root : List TypeInfo)
    (infoP : Option (List TypeInfo)) (t : Nat) : List Pod → List Pod
  | [] => []
  | p :: ps => remap_to_v2_prop tm root infoP t p ++
      remap_to_v2_obj tm root infoP t ps

mutual

/-- remap_to_v2 (protocol-native.c:431-545): the v2 → v0 tree rewrite.
Returns the pods the call appends to the builder stream; tags without a
case in the C switch (scalars, arrays, and also Choice, which only occurs
inside properties in v2) fall into `default: break;` and contribute
nothing. Object headers are emitted with type and id swapped and
translated, except for the Node command object type, which yields
object_type 0 and an object_id translated through the command
enumeration's type-info subtree. -/
def remap_to_v2 (m : ClientTypes) (tm : TypeTable) (root : List TypeInfo)
    (info : Option (List TypeInfo)) : Pod → List Pod
  | .idPod v => [.idPod (pw_protocol_native0_type_to_v2 root tm info v)]
  | .objectPod t i body =>
    let ti := spa_debug_type_find root info t
    let ii0 := match ti with
      | some x => spa_debug_type_find root x.vals 0
      | none => none
    let infoP : Option (List TypeInfo) := match ti with
      | some x => x.vals
      | none => info
    if t = SPA_TYPE_COMMAND_Node then
      let ctx : Option (List TypeInfo) := match ii0 with
        | some x => x.vals
        | none => none
      [.objectPod 0 (pw_protocol_native0_type_to_v2 root tm ctx i)
        (remap_to_v2_obj tm root infoP t body)]
    else
      let ii1 := match ii0 with
        | some x => spa_debug_type_find root x.vals i
        | none => none
      let ctx : Option (List TypeInfo) := match ii1 with
        | some x => x.vals
        | none => none
      [.objectPod (pw_protocol_native0_type_to_v2 root tm ctx i)
        (pw_protocol_native0_type_to_v2 root tm info t)
        (remap_to_v2_obj tm root infoP t body)]
  | .structPod body => [.structPod (remap_to_v2_list m tm root info body)]
  | _ => []

/-- The SPA_POD_FOREACH loop of remap_to_v2's Struct arm. -/
def remap_to_v2_list (m : ClientTypes) (tm : TypeTable) (root : List TypeInfo)
    (info : Option (List TypeInfo)) : List Pod → List Pod
  | [] => []
  | p :: ps =>
    remap_to_v2 m tm root info p ++ remap_to_v2_list m tm root info ps

end

/-- pw_protocol_native0_pod_from_v2 (protocol-native.c:550-571): a NULL
input pod returns NULL with errno untouched; otherwise the remapped copy.
At tree level remap_from_v2 cannot fail — its only C error path needs an
Id-typed value whose body is shorter than four bytes — so the errno
component (second) is always `none`. -/
def pw_protocol_native0_pod_from_v2 (m : ClientTypes) (tm : TypeTable)
    (pod : Option Pod) : Option (List Pod) × Option Int :=
  match pod with
  | none => (none, none)
  | some p => (some (remap_from_v2 m tm p), none)

/-- pw_protocol_native0_pod_to_v2 (protocol-native.c:573-592): a NULL input
pod writes a None pod into the builder and returns 0; otherwise the remap
stream (driven by the pw_type_info() table, here `pwInfo`) and 0. -/
def pw_protocol_native0_pod_to_v2 (m : ClientTypes) (tm : TypeTable)
    (root : List TypeInfo) (pwInfo : Option (List TypeInfo))
    (pod : Option Pod) : List Pod × Int :=
  match pod with
  | none => ([Pod.nonePod], 0)
  | some p => (remap_to_v2 m tm root pwInfo p, 0)

/-- core_demarshal_update_types_server (protocol-native.c:655-686): after
parsing (first_id, n_types, strings), insert the row index matching each
string (SPA_ID_INVALID when no row matches) at successive slots starting
at first_id. The message is modelled post-parse as the first slot and the
string list. -/
def core_demarshal_update_types_server (tm : TypeTable) (m : ClientTypes)
    (firstId : Nat) (types : List String) : ClientTypes :=
  match types with
  | [] => m
  | s :: ss =>
    core_demarshal_update_types_server tm
      (install_v0 m firstId (pw_protocol_native0_find_type tm s))
      (firstId + 1) ss

/-- An enum_params request body (id, index, num, filter) after a successful
parse (the spa_pod_parser is not under src/; the message is modelled
post-parse). -/
structure EnumParamsMsg where
  id : Nat
  index : Nat
  num : Nat
  filter : Pod

/-- The argument tuple handed to pw_resource_notify(... enum_params ...). -/
structure EnumParamsCall where
  seq : Nat
  id : Nat
  index : Nat
  num : Nat
  filter : Option Pod

/-- node_demarshal_enum_params (protocol-native.c:866-887): translate the
parameter id through the per-client table, keep index and num, and force
the filter to NULL before notifying. -/
def node_demarshal_enum_params (m : ClientTypes) (tm : TypeTable)
    (msg : EnumParamsMsg) : EnumParamsCall :=
  { seq := 0, id := pw_protocol_native0_type_from_v2 m tm msg.id,
    index := msg.index, num := msg.num, filter := none }

/-- port_demarshal_enum_params (protocol-native.c:933-954): identical body
to the node variant, duplicated in the C. -/
def port_demarshal_enum_params (m : ClientTypes) (tm : TypeTable)
    (msg : EnumParamsMsg) : EnumParamsCall :=
  { seq := 0, id := pw_protocol_native0_type_from_v2 m tm msg.id,
    index := msg.index, num := msg.num, filter := none }



/-! ## Spec-side definitions

These restate fragments of the spec's (and the claims') wording, to be
compared against the code-derived functions above. -/

/-- Spec wording for the v0 range-bits → v2 choice-type mapping (§4.E):
NONE→None, MIN_MAX→Range, STEP→Step, ENUM→Enum, FLAGS→Flags on the low
four bits, and any flags word without the UNSET bit yields None regardless
of the declared range. -/
def specChoiceTypeOfFlags (flags : Nat) : Nat :=
  if ¬ flags.testBit 4 then SPA_CHOICE_None
  else if flags % 16 = SPA_POD_PROP0_RANGE_MIN_MAX then SPA_CHOICE_Range
  else if flags % 16 = SPA_POD_PROP0_RANGE_STEP then SPA_CHOICE_Step
  else if flags % 16 = SPA_POD_PROP0_RANGE_ENUM then SPA_CHOICE_Enum
  else if flags % 16 = SPA_POD_PROP0_RANGE_FLAGS then SPA_CHOICE_Flags
  else SPA_CHOICE_None

/-- Spec wording: an Id element is translated through the per-client table,
any other element is carried unchanged. -/
def specTranslateElem (m : ClientTypes) (tm : TypeTable) : Pod → Pod
  | .idPod x => .idPod (pw_protocol_native0_type_from_v2 m tm x)
  | p => p

/-- Spec wording: alternatives are translated element-wise exactly when the
default value is an Id, and carried unchanged otherwise. -/
def specTranslateAlts (m : ClientTypes) (tm : TypeTable) (value : Pod)
    (alts : List Pod) : List Pod :=
  match value with
  | .idPod _ => alts.map (specTranslateElem m tm)
  | _ => alts

/-- Spec wording on the v2 → v0 side: an Id element is translated through
the given type-info context, any other element is carried unchanged. -/
def specToV0Elem (root : List TypeInfo) (tm : TypeTable)
    (ctx : Option (List TypeInfo)) : Pod → Pod
  | .idPod x => .idPod (pw_protocol_native0_type_to_v2 root tm ctx x)
  | p => p

/-- Spec wording on the v2 → v0 side: alternatives are translated
element-wise exactly when the default value is an Id. -/
def specToV0Alts (root : List TypeInfo) (tm : TypeTable)
    (ctx : Option (List TypeInfo)) (value : Pod) (alts : List Pod) :
    List Pod :=
  match value with
  | .idPod _ => alts.map (specToV0Elem root tm ctx)
  | _ => alts

/-- The type-info context remap_to_v2 derives for an object's properties:
the object type's own value table, or the incoming table when the type is
not found (`info = ti ? ti->values : info`). -/
def objPropCtx (root : List TypeInfo) (info : Option (List TypeInfo))
    (t : Nat) : Option (List TypeInfo) :=
  match spa_debug_type_find root info t with
  | some x => x.vals
  | none => info

/-- Row 0 of an object type's value table
(`ii = ti ? spa_debug_type_find(ti->values, 0) : NULL`). -/
def rowZeroOf (root : List TypeInfo) (info : Option (List TypeInfo))
    (t : Nat) : Option TypeInfo :=
  match spa_debug_type_find root info t with
  | some x => spa_debug_type_find root x.vals 0
  | none => none

/-- The command enumeration's value table, used to translate a Node
command object's id (`ii ? ii->values : NULL` in the command branch). -/
def commandIdCtx (root : List TypeInfo) (info : Option (List TypeInfo))
    (t : Nat) : Option (List TypeInfo) :=
  match rowZeroOf root info t with
  | some x => x.vals
  | none => none

/-- The value table used to translate a generic object's id: row 0's table
searched for the id, then that row's values
(`ii = ii ? spa_debug_type_find(ii->values, b->id) : NULL`). -/
def objIdCtx (root : List TypeInfo) (info : Option (List TypeInfo))
    (t i : Nat) : Option (List TypeInfo) :=
  match (match rowZeroOf root info t with
         | some x => spa_debug_type_find root x.vals i
         | none => none) with
  | some y => y.vals
  | none => none

/-- The type-info context remap_to_v2 uses for a property's Id values
(`ii = spa_debug_type_find(info, p->key)` then `ii ? ii->values : NULL`). -/
def propIdCtx (root : List TypeInfo) (infoP : Option (List TypeInfo))
    (k : Nat) : Option (List TypeInfo) :=
  match spa_debug_type_find root infoP k with
  | some x => x.vals
  | none => none

/-- The tags remap_from_v2 has switch cases for; everything else falls into
`default: break;` and is dropped from the output stream. -/
def isRemappedTag : Pod → Bool
  | .idPod _ => true
  | .choicePod _ _ _ _ => true
  | .objectPod _ _ _ => true
  | .structPod _ => true
  | _ => false

/-! ## Claims -/

/-- C5: translating a v0 slot (pw_protocol_native0_type_from_v2) looks the
slot up in the client's per-client map and returns the v2 id of the
recovered global-type-table row; a slot absent from the map yields
SPA_ID_INVALID. -/
theorem c5_type_from_v0_lookup (m : ClientTypes) (tm : TypeTable)
    (slot : Nat) :
    (lookup_v0 m slot = none →
      pw_protocol_native0_type_from_v2 m tm slot = SPA_ID_INVALID) ∧
    (∀ index row, lookup_v0 m slot = some index → tm[index]? = some row →
      pw_protocol_native0_type_from_v2 m tm slot = row.id) := by
  constructor
  · intro h
    simp [pw_protocol_native0_type_from_v2, h]
  · intro index row h1 h2
    simp [pw_protocol_native0_type_from_v2, h1, h2]

/-- Witness for C5: a one-row table with the slot present and a missing
slot. -/
theorem c5_type_from_v0_lookup_witness :
    pw_protocol_native0_type_from_v2 [(3, 0)] [⟨"a", some "A", 77⟩] 4 =
      SPA_ID_INVALID ∧
    pw_protocol_native0_type_from_v2 [(3, 0)] [⟨"a", some "A", 77⟩] 3 = 77 := by
  constructor
  · exact (c5_type_from_v0_lookup [(3, 0)] [⟨"a", some "A", 77⟩] 4).1 rfl
  · exact (c5_type_from_v0_lookup [(3, 0)] [⟨"a", some "A", 77⟩] 3).2
      0 ⟨"a", some "A", 77⟩ rfl rfl

/-- Lookup below the first slot of an UpdateTypes run is unaffected by the
run. -/
theorem update_types_lookup_below (tm : TypeTable) (types : List String)
    (m : ClientTypes) (firstId k : Nat) (h : k < firstId) :
    lookup_v0 (core_demarshal_update_types_server tm m firstId types) k =
      lookup_v0 m k := by
  induction types generalizing m firstId with
  | nil => rfl
  | cons s ss ih =>
    rw [core_demarshal_update_types_server]
    rw [ih _ _ (Nat.lt_succ_of_lt h)]
    simp [install_v0, lookup_v0, Nat.ne_of_gt h]

/-- C8: the UpdateTypes demarshaler maps slot first_id+i to the index of
the first global-table row whose v0 type string equals the i-th announced
string; pw_protocol_native0_find_type yields SPA_ID_INVALID when no row
matches, and that value is installed. -/
theorem c8_update_types_inserts (tm : TypeTable) (m : ClientTypes)
    (firstId : Nat) (types : List String) (i : Nat) (h : i < types.length) :
    lookup_v0 (core_demarshal_update_types_server tm m firstId types)
        (firstId + i) =
      some (pw_protocol_native0_find_type tm (types.get ⟨i, h⟩)) := by
  induction types generalizing m firstId i with
  | nil => exact absurd h (Nat.not_lt_zero i)
  | cons s ss ih =>
    cases i with
    | zero =>
      rw [core_demarshal_update_types_server]
      have hb := update_types_lookup_below tm ss
        (install_v0 m firstId (pw_protocol_native0_find_type tm s))
        (firstId + 1) firstId (by omega)
      simp only [Nat.add_zero]
      rw [hb]
      simp [install_v0, lookup_v0]
    | succ j =>
      rw [core_demarshal_update_types_server]
      have hj : j < ss.length := Nat.lt_of_succ_lt_succ h
      have := ih (install_v0 m firstId (pw_protocol_native0_find_type tm s))
        (firstId + 1) j hj
      rw [show firstId + (j + 1) = firstId + 1 + j by omega]
      exact this

/-- Witness for C8: a two-string message against a one-row table; the
matching string maps to row 0 and the unknown string to SPA_ID_INVALID. -/
theorem c8_update_types_inserts_witness :
    lookup_v0 (core_demarshal_update_types_server
        [⟨"a", some "A", 77⟩] [] 5 ["x", "a"]) (5 + 0) =
      some SPA_ID_INVALID ∧
    lookup_v0 (core_demarshal_update_types_server
        [⟨"a", some "A", 77⟩] [] 5 ["x", "a"]) (5 + 1) = some 0 := by
  constructor
  · have := c8_update_types_inserts [⟨"a", some "A", 77⟩] [] 5 ["x", "a"] 0
      (by decide)
    rw [this]; rfl
  · have := c8_update_types_inserts [⟨"a", some "A", 77⟩] [] 5 ["x", "a"] 1
      (by decide)
    rw [this]; rfl

/-- C9: a NULL input POD is accepted at the public remap interface:
pod_to_v2 writes a None pod and returns 0, pod_from_v2 returns NULL
without setting errno. -/
theorem c9_null_pod_accepted (m : ClientTypes) (tm : TypeTable)
    (root : List TypeInfo) (pwInfo : Option (List TypeInfo)) :
    pw_protocol_native0_pod_to_v2 m tm root pwInfo none = ([Pod.nonePod], 0) ∧
    pw_protocol_native0_pod_from_v2 m tm none = (none, none) :=
  ⟨rfl, rfl⟩

/-- C10: both enum_params demarshalers translate only the parameter id
through the per-client table, keep index and num, and always hand the
implementation a NULL filter, discarding the parsed filter pod. -/
theorem c10_enum_params_null_filter (m : ClientTypes) (tm : TypeTable)
    (msg : EnumParamsMsg) :
    (node_demarshal_enum_params m tm msg).filter = none ∧
    (node_demarshal_enum_params m tm msg).id =
      pw_protocol_native0_type_from_v2 m tm msg.id ∧
    (node_demarshal_enum_params m tm msg).index = msg.index ∧
    (node_demarshal_enum_params m tm msg).num = msg.num ∧
    (port_demarshal_enum_params m tm msg).filter = none ∧
    (port_demarshal_enum_params m tm msg).id =
      pw_protocol_native0_type_from_v2 m tm msg.id ∧
    (port_demarshal_enum_params m tm msg).index = msg.index ∧
    (port_demarshal_enum_params m tm msg).num = msg.num :=
  ⟨rfl, rfl, rfl, rfl, rfl, rfl, rfl, rfl⟩

/-- C6 counterexample: with the per-client map still unpopulated (no
UpdateTypes processed, modelled by the empty map), the public remap does
not fail: it produces an output pod whose id is SPA_ID_INVALID, and the
errno component stays unset. The claim says any remap before the table
exchange fails with Uninitialised rather than producing output. -/
theorem c6_counterexample :
    pw_protocol_native0_pod_from_v2 [] [] (some (Pod.idPod 5)) =
      (some [Pod.idPod 4294967295], none) := rfl

/-- C6 amended: a remap for a client whose per-client map is unpopulated
does not fail with an error; every slot translation yields SPA_ID_INVALID
and the remap succeeds, emitting INVALID identifiers. -/
theorem c6_amended_uninitialised_yields_invalid (tm : TypeTable)
    (slot v : Nat) (p : Pod) :
    pw_protocol_native0_type_from_v2 [] tm slot = SPA_ID_INVALID ∧
    remap_from_v2 [] tm (Pod.idPod v) = [Pod.idPod SPA_ID_INVALID] ∧
    (pw_protocol_native0_pod_from_v2 [] tm (some p)).1 ≠ none ∧
    (pw_protocol_native0_pod_from_v2 [] tm (some p)).2 = none := by
  refine ⟨rfl, rfl, ?_, rfl⟩
  simp [pw_protocol_native0_pod_from_v2]

/-- The choice-type computation of remap_from_v2's Choice arm agrees with
the spec's wording of the range-bit mapping and UNSET downgrade. -/
theorem choiceTypeOfFlags_agrees (flags : Nat) :
    (if flags.testBit 4 then rangeToChoice (flags % 16) else SPA_CHOICE_None)
      = specChoiceTypeOfFlags flags := by
  by_cases h : flags.testBit 4 <;>
    simp [h, specChoiceTypeOfFlags, rangeToChoice]

/-- C2: a legacy v0 Prop node (Choice wire tag read as a prop body) remaps
to a Property with flags 0 and translated key, wrapping a Choice whose type
maps the range bits NONE→None, MIN_MAX→Range, STEP→Step, ENUM→Enum,
FLAGS→Flags and is forced to None whenever the UNSET bit is absent; the
Choice contains the default plus the alternatives, with Id elements
translated element-wise and non-Id payloads copied raw. The hypothesis
reflects wire invariant I4: alternatives share the Id type of the value. -/
theorem c2_prop_remap (m : ClientTypes) (tm : TypeTable) (key flags : Nat)
    (value : Pod) (alts : List Pod)
    (h : ∀ x, value = Pod.idPod x → ∀ a ∈ alts, ∃ y, a = Pod.idPod y) :
    remap_from_v2 m tm (Pod.choicePod key flags value alts) =
      [Pod.prop2Pod (pw_protocol_native0_type_from_v2 m tm key) 0
        (Pod.choicePod (specChoiceTypeOfFlags flags) 0
          (specTranslateElem m tm value)
          (specTranslateAlts m tm value alts))] := by
  cases value with
  | idPod x =>
    simp only [remap_from_v2, choiceTypeOfFlags_agrees, specTranslateElem,
      specTranslateAlts]
    have halts : alts.map
        (fun a => Pod.idPod (pw_protocol_native0_type_from_v2 m tm (idPayload a)))
          = alts.map (specTranslateElem m tm) := by
      apply List.map_congr_left
      intro a ha
      rcases h x rfl a ha with ⟨y, rfl⟩
      rfl
    rw [halts]
  | nonePod => simp [remap_from_v2, choiceTypeOfFlags_agrees,
      specTranslateElem, specTranslateAlts]
  | boolPod b => simp [remap_from_v2, choiceTypeOfFlags_agrees,
      specTranslateElem, specTranslateAlts]
  | intPod v => simp [remap_from_v2, choiceTypeOfFlags_agrees,
      specTranslateElem, specTranslateAlts]
  | longPod v => simp [remap_from_v2, choiceTypeOfFlags_agrees,
      specTranslateElem, specTranslateAlts]
  | stringPod s => simp [remap_from_v2, choiceTypeOfFlags_agrees,
      specTranslateElem, specTranslateAlts]
  | rectanglePod w hh => simp [remap_from_v2, choiceTypeOfFlags_agrees,
      specTranslateElem, specTranslateAlts]
  | fractionPod a b => simp [remap_from_v2, choiceTypeOfFlags_agrees,
      specTranslateElem, specTranslateAlts]
  | arrayPod ct es => simp [remap_from_v2, choiceTypeOfFlags_agrees,
      specTranslateElem, specTranslateAlts]
  | structPod b => simp [remap_from_v2, choiceTypeOfFlags_agrees,
      specTranslateElem, specTranslateAlts]
  | objectPod a b c => simp [remap_from_v2, choiceTypeOfFlags_agrees,
      specTranslateElem, specTranslateAlts]
  | choicePod a b c d => simp [remap_from_v2, choiceTypeOfFlags_agrees,
      specTranslateElem, specTranslateAlts]
  | prop2Pod a b c => simp [remap_from_v2, choiceTypeOfFlags_agrees,
      specTranslateElem, specTranslateAlts]

/-- Witness for C2: an Enum prop over Ids (flags 19 = ENUM range | UNSET)
with one alternative, against a three-row table. -/
theorem c2_prop_remap_witness :
    remap_from_v2 [(3, 0), (1, 1), (2, 2)]
        [⟨"a", some "A", 100⟩, ⟨"b", some "B", 101⟩, ⟨"c", some "C", 102⟩]
        (Pod.choicePod 3 19 (Pod.idPod 1) [Pod.idPod 2]) =
      [Pod.prop2Pod 100 0 (Pod.choicePod SPA_CHOICE_Enum 0 (Pod.idPod 101)
        [Pod.idPod 102])] := by
  have h := c2_prop_remap [(3, 0), (1, 1), (2, 2)]
    [⟨"a", some "A", 100⟩, ⟨"b", some "B", 101⟩, ⟨"c", some "C", 102⟩]
    3 19 (Pod.idPod 1) [Pod.idPod 2]
    (by
      intro x hx a ha
      rcases List.mem_singleton.mp ha with rfl
      exact ⟨2, rfl⟩)
  rw [h]
  rfl

/-- C7: remap_to_v2 on an Object whose type is the Node command emits
object_type 0 and an object_id translated through the command
enumeration's value table; for every other object type it performs the
usual swapped handling, emitting the translated object id as the output
type and the translated object type as the output id. -/
theorem c7_command_object (m : ClientTypes) (tm : TypeTable)
    (root : List TypeInfo) (info : Option (List TypeInfo)) (t i : Nat)
    (body : List Pod) :
    (t = SPA_TYPE_COMMAND_Node →
      remap_to_v2 m tm root info (Pod.objectPod t i body) =
        [Pod.objectPod 0
          (pw_protocol_native0_type_to_v2 root tm (commandIdCtx root info t) i)
          (remap_to_v2_obj tm root (objPropCtx root info t) t body)]) ∧
    (t ≠ SPA_TYPE_COMMAND_Node →
      remap_to_v2 m tm root info (Pod.objectPod t i body) =
        [Pod.objectPod
          (pw_protocol_native0_type_to_v2 root tm (objIdCtx root info t i) i)
          (pw_protocol_native0_type_to_v2 root tm info t)
          (remap_to_v2_obj tm root (objPropCtx root info t) t body)]) := by
  constructor
  · intro h
    simp only [remap_to_v2, if_pos h]
    simp [commandIdCtx, rowZeroOf, objPropCtx]
  · intro h
    simp only [remap_to_v2, if_neg h]
    simp [objIdCtx, rowZeroOf, objPropCtx]

/-- Witness for C7: a Node command object (type 0x30002) against empty
tables, and a generic object (type 5) for the contrasting branch. -/
theorem c7_command_object_witness :
    remap_to_v2 [] [] [] none (Pod.objectPod SPA_TYPE_COMMAND_Node 9 []) =
      [Pod.objectPod 0 4294967295 []] ∧
    remap_to_v2 [] [] [] none (Pod.objectPod 5 9 []) =
      [Pod.objectPod 4294967295 4294967295 []] := by
  constructor
  · have h := (c7_command_object [] [] [] none SPA_TYPE_COMMAND_Node 9 []).1 rfl
    rw [h]
    rfl
  · have h := (c7_command_object [] [] [] none 5 9 []).2 (by decide)
    rw [h]
    rfl

/-- C1 counterexample: remap_from_v2 does not wrap each child of a v0
Object in a synthesized Property. At this concrete input — a non-Format
object with an Int child and an Id child, against the unpopulated map —
the Int child is dropped entirely and the Id child is emitted bare, so the
output object body is a single bare Id, not a list of Properties. -/
theorem c1_counterexample :
    remap_from_v2 [] [] (Pod.objectPod 0 0 [Pod.intPod 7, Pod.idPod 3]) =
      [Pod.objectPod 4294967295 4294967295 [Pod.idPod 4294967295]] ∧
    ¬ ∃ k f w, Pod.idPod (4294967295 : Nat) = Pod.prop2Pod k f w := by
  refine ⟨rfl, ?_⟩
  rintro ⟨k, f, w, hw⟩
  exact Pod.noConfusion hw

/-- C1 amended: remap_from_v2 on a v0 Object emits a single Object whose
header is the input (type, id) pair swapped and each translated through
the per-client table. Its children are processed in order: while the
translated object type is Format and fewer than two Id children have been
seen, an Id child becomes the mediaType (first) or mediaSubtype (second)
property with translated payload and a non-Id child is dropped without
advancing the count; otherwise a legacy Prop child is wrapped in a
synthesized Property whose value is a Choice, a bare Id child is
translated in place without a Property wrapper, Struct and Object
children recurse, and children of any other tag are dropped. -/
theorem c1_amended_object_remap (m : ClientTypes) (tm : TypeTable) :
    (∀ t i body,
      remap_from_v2 m tm (Pod.objectPod t i body) =
        [Pod.objectPod (pw_protocol_native0_type_from_v2 m tm i)
          (pw_protocol_native0_type_from_v2 m tm t)
          (remap_from_v2_obj m tm
            (pw_protocol_native0_type_from_v2 m tm i) 0 body)]) ∧
    (∀ ot count p ps, ¬ (ot = SPA_TYPE_OBJECT_Format ∧ count < 2) →
      remap_from_v2_obj m tm ot count (p :: ps) =
        remap_from_v2 m tm p ++ remap_from_v2_obj m tm ot count ps) ∧
    (∀ key fl v alts, ∃ ct v2 alts2,
      remap_from_v2 m tm (Pod.choicePod key fl v alts) =
        [Pod.prop2Pod (pw_protocol_native0_type_from_v2 m tm key) 0
          (Pod.choicePod ct 0 v2 alts2)]) ∧
    (∀ x, remap_from_v2 m tm (Pod.idPod x) =
      [Pod.idPod (pw_protocol_native0_type_from_v2 m tm x)]) ∧
    (∀ p, isRemappedTag p = false → remap_from_v2 m tm p = []) ∧
    (∀ count x ps, count < 2 →
      remap_from_v2_obj m tm SPA_TYPE_OBJECT_Format count
          (Pod.idPod x :: ps) =
        Pod.prop2Pod
            (if count = 0 then SPA_FORMAT_mediaType else SPA_FORMAT_mediaSubtype)
            0 (Pod.idPod (pw_protocol_native0_type_from_v2 m tm x)) ::
          remap_from_v2_obj m tm SPA_TYPE_OBJECT_Format (count + 1) ps) ∧
    (∀ count p ps, count < 2 → (∀ x, p ≠ Pod.idPod x) →
      remap_from_v2_obj m tm SPA_TYPE_OBJECT_Format count (p :: ps) =
        remap_from_v2_obj m tm SPA_TYPE_OBJECT_Format count ps) := by
  refine ⟨fun t i body => rfl, ?_, ?_, fun x => rfl, ?_, ?_, ?_⟩
  · intro ot count p ps h
    simp only [remap_from_v2_obj, if_neg h]
  · intro key fl v alts
    cases v <;> exact ⟨_, _, _, rfl⟩
  · intro p hp
    cases p <;> first | rfl | simp [isRemappedTag] at hp
  · intro count x ps h
    simp only [remap_from_v2_obj]
    rw [if_pos (show True ∧ count < 2 from ⟨trivial, h⟩)]
    by_cases hc : count = 0 <;> simp [hc]
  · intro count p ps h hne
    cases p with
    | idPod x => exact absurd rfl (hne x)
    | nonePod =>
      simp only [remap_from_v2_obj]
      rw [if_pos (show True ∧ count < 2 from ⟨trivial, h⟩)]
    | boolPod b =>
      simp only [remap_from_v2_obj]
      rw [if_pos (show True ∧ count < 2 from ⟨trivial, h⟩)]
    | intPod v =>
      simp only [remap_from_v2_obj]
      rw [if_pos (show True ∧ count < 2 from ⟨trivial, h⟩)]
    | longPod v =>
      simp only [remap_from_v2_obj]
      rw [if_pos (show True ∧ count < 2 from ⟨trivial, h⟩)]
    | stringPod s =>
      simp only [remap_from_v2_obj]
      rw [if_pos (show True ∧ count < 2 from ⟨trivial, h⟩)]
    | rectanglePod w hh =>
      simp only [remap_from_v2_obj]
      rw [if_pos (show True ∧ count < 2 from ⟨trivial, h⟩)]
    | fractionPod a b =>
      simp only [remap_from_v2_obj]
      rw [if_pos (show True ∧ count < 2 from ⟨trivial, h⟩)]
    | arrayPod ct es =>
      simp only [remap_from_v2_obj]
      rw [if_pos (show True ∧ count < 2 from ⟨trivial, h⟩)]
    | structPod b =>
      simp only [remap_from_v2_obj]
      rw [if_pos (show True ∧ count < 2 from ⟨trivial, h⟩)]
    | objectPod a b c =>
      simp only [remap_from_v2_obj]
      rw [if_pos (show True ∧ count < 2 from ⟨trivial, h⟩)]
    | choicePod a b c d =>
      simp only [remap_from_v2_obj]
      rw [if_pos (show True ∧ count < 2 from ⟨trivial, h⟩)]
    | prop2Pod a b c =>
      simp only [remap_from_v2_obj]
      rw [if_pos (show True ∧ count < 2 from ⟨trivial, h⟩)]

/-- Witness for C1 amended: concrete instances of the non-Format child
rule (Int child dropped), the Format Id rule (first Id child becomes the
mediaType property), and the Format skip rule (non-Id child dropped
without advancing the count). -/
theorem c1_amended_object_remap_witness :
    remap_from_v2_obj [] [] 5 0 [Pod.intPod 7] = [] ∧
    remap_from_v2_obj [] [] SPA_TYPE_OBJECT_Format 0 [Pod.idPod 3] =
      [Pod.prop2Pod SPA_FORMAT_mediaType 0 (Pod.idPod 4294967295)] ∧
    remap_from_v2_obj [] [] SPA_TYPE_OBJECT_Format 0 [Pod.intPod 7] = [] := by
  have h := c1_amended_object_remap [] []
  refine ⟨?_, ?_, ?_⟩
  · rw [h.2.1 5 0 (Pod.intPod 7) [] (by decide)]
    rfl
  · rw [h.2.2.2.2.2.1 0 3 [] (by decide)]
    rfl
  · rw [h.2.2.2.2.2.2 0 (Pod.intPod 7) [] (by decide)
      (fun x hx => Pod.noConfusion hx)]
    rfl

/-- C3 counterexample: on the v2→v0 path a property whose value is a
Choice of type None does not collapse to the bare value. At this concrete
input — a Props object carrying one property whose value is
Choice(None, Int 42) — the output object body holds a legacy Prop wrapper
(a choice-tagged pod carrying the translated key and flags 0) around the
value, not the bare value. -/
theorem c3_counterexample :
    remap_to_v2 [] [] [] none
        (Pod.objectPod 0x40002 7
          [Pod.prop2Pod 5 0
            (Pod.choicePod SPA_CHOICE_None 0 (Pod.intPod 42) [])]) =
      [Pod.objectPod 4294967295 4294967295
        [Pod.choicePod 4294967295 0 (Pod.intPod 42) []]] ∧
    Pod.choicePod 4294967295 0 (Pod.intPod 42) [] ≠ Pod.intPod 42 := by
  refine ⟨rfl, ?_⟩
  intro h
  exact Pod.noConfusion h

/-- C3 amended: on the v2→v0 path a property whose value is a Choice of
type None (or a bare value, which get_values views identically) emits a
legacy Prop wrapper — a choice-tagged pod whose first body word is the
translated key — with flags carrying range NONE and no UNSET bit,
containing the value with Id payloads translated and other payloads raw;
the v2 Choice-None wrapper itself is dropped. Only Format's mediaType and
mediaSubtype properties emit a bare value instead of a Prop. -/
theorem c3_amended_choice_none_keeps_prop (tm : TypeTable)
    (root : List TypeInfo) (infoP : Option (List TypeInfo)) (t k f cf : Nat)
    (val : Pod) (valts : List Pod)
    (hmedia : ¬ (t = SPA_TYPE_OBJECT_Format ∧
      (k = SPA_FORMAT_mediaType ∨ k = SPA_FORMAT_mediaSubtype)))
    (hwf : ∀ x, val = Pod.idPod x → ∀ a ∈ valts, ∃ y, a = Pod.idPod y) :
    remap_to_v2_prop tm root infoP t
        (Pod.prop2Pod k f (Pod.choicePod SPA_CHOICE_None cf val valts)) =
      [Pod.choicePod (pw_protocol_native0_type_to_v2 root tm infoP k)
        SPA_POD_PROP0_RANGE_NONE
        (specToV0Elem root tm (propIdCtx root infoP k) val)
        (specToV0Alts root tm (propIdCtx root infoP k) val valts)] := by
  cases val with
  | idPod x =>
    simp only [remap_to_v2_prop, if_neg hmedia, spa_pod_get_values,
      specToV0Elem, specToV0Alts, propIdCtx, SPA_POD_PROP0_RANGE_NONE]
    have halts : valts.map (fun a =>
        Pod.idPod (pw_protocol_native0_type_to_v2 root tm
          (match spa_debug_type_find root infoP k with
           | some x => x.vals
           | none => none) (idPayload a))) =
        valts.map (specToV0Elem root tm
          (match spa_debug_type_find root infoP k with
           | some x => x.vals
           | none => none)) := by
      apply List.map_congr_left
      intro a ha
      rcases hwf x rfl a ha with ⟨y, rfl⟩
      rfl
    rw [halts]
    simp
  | nonePod => simp [remap_to_v2_prop, if_neg hmedia, spa_pod_get_values,
      specToV0Elem, specToV0Alts, propIdCtx, SPA_POD_PROP0_RANGE_NONE]
  | boolPod b => simp [remap_to_v2_prop, if_neg hmedia, spa_pod_get_values,
      specToV0Elem, specToV0Alts, propIdCtx, SPA_POD_PROP0_RANGE_NONE]
  | intPod v => simp [remap_to_v2_prop, if_neg hmedia, spa_pod_get_values,
      specToV0Elem, specToV0Alts, propIdCtx, SPA_POD_PROP0_RANGE_NONE]
  | longPod v => simp [remap_to_v2_prop, if_neg hmedia, spa_pod_get_values,
      specToV0Elem, specToV0Alts, propIdCtx, SPA_POD_PROP0_RANGE_NONE]
  | stringPod s => simp [remap_to_v2_prop, if_neg hmedia, spa_pod_get_values,
      specToV0Elem, specToV0Alts, propIdCtx, SPA_POD_PROP0_RANGE_NONE]
  | rectanglePod w hh => simp [remap_to_v2_prop, if_neg hmedia,
      spa_pod_get_values, specToV0Elem, specToV0Alts, propIdCtx,
      SPA_POD_PROP0_RANGE_NONE]
  | fractionPod a b => simp [remap_to_v2_prop, if_neg hmedia,
      spa_pod_get_values, specToV0Elem, specToV0Alts, propIdCtx,
      SPA_POD_PROP0_RANGE_NONE]
  | arrayPod ct es => simp [remap_to_v2_prop, if_neg hmedia,
      spa_pod_get_values, specToV0Elem, specToV0Alts, propIdCtx,
      SPA_POD_PROP0_RANGE_NONE]
  | structPod b => simp [remap_to_v2_prop, if_neg hmedia, spa_pod_get_values,
      specToV0Elem, specToV0Alts, propIdCtx, SPA_POD_PROP0_RANGE_NONE]
  | objectPod a b c => simp [remap_to_v2_prop, if_neg hmedia,
      spa_pod_get_values, specToV0Elem, specToV0Alts, propIdCtx,
      SPA_POD_PROP0_RANGE_NONE]
  | choicePod a b c d => simp [remap_to_v2_prop, if_neg hmedia,
      spa_pod_get_values, specToV0Elem, specToV0Alts, propIdCtx,
      SPA_POD_PROP0_RANGE_NONE]
  | prop2Pod a b c => simp [remap_to_v2_prop, if_neg hmedia,
      spa_pod_get_values, specToV0Elem, specToV0Alts, propIdCtx,
      SPA_POD_PROP0_RANGE_NONE]

/-- Witness for C3 amended: a non-media property key against empty tables
whose value is Choice(None, Int 42). -/
theorem c3_amended_choice_none_keeps_prop_witness :
    remap_to_v2_prop [] [] none 5 (Pod.prop2Pod 9 0
        (Pod.choicePod SPA_CHOICE_None 3 (Pod.intPod 42) [])) =
      [Pod.choicePod 4294967295 0 (Pod.intPod 42) []] := by
  have h := c3_amended_choice_none_keeps_prop [] [] none 5 9 0 3
    (Pod.intPod 42) []
    (by decide)
    (fun x hx a ha => absurd hx (by intro hh; exact Pod.noConfusion hh))
  rw [h]
  rfl

/-! ## The v2 → v0 → v2 round trip (C4)

The spec's round-trip property holds only on a fragment: both walkers drop
tags without switch cases, remap_to_v2 discards property and choice flags,
and the Format/Command special cases constrain object bodies. `collapse`
is the spec's "modulo Choice-None collapse" normalisation; the `good*`
predicates delimit the fragment and carry the claim's "translatable
identifiers" restriction as table round-trip equations. -/

mutual

/-- Collapse every Choice node of type None with no alternatives to its
single value (spec §8, "identity modulo Choice-None collapse"; design note
§9 "Choice-None ambiguity"). -/
def collapse : Pod → Pod
  | .choicePod ct f v [] =>
    if ct = SPA_CHOICE_None then collapse v
    else .choicePod ct f (collapse v) []
  | .choicePod ct f v alts => .choicePod ct f (collapse v) (collapseList alts)
  | .structPod b => .structPod (collapseList b)
  | .objectPod t i b => .objectPod t i (collapseList b)
  | .arrayPod ct es => .arrayPod ct (collapseList es)
  | .prop2Pod k f v => .prop2Pod k f (collapse v)
  | p => p

def collapseList : List Pod → List Pod
  | [] => []
  | p :: ps => collapse p :: collapseList ps

end

theorem collapseList_eq_map (l : List Pod) :
    collapseList l = l.map collapse := by
  induction l with
  | nil => rfl
  | cons p ps ih => simp [collapseList, ih]

/-- One identifier's round trip through the tables: translating the v2 id
to a v0 row in the given type-info context and back through the per-client
map recovers the id. This is the claim's "translatable identifiers"
restriction, relative to the lookup context the walkers use. -/
def roundId (m : ClientTypes) (tm : TypeTable) (root : List TypeInfo)
    (ctx : Option (List TypeInfo)) (x : Nat) : Bool :=
  pw_protocol_native0_type_from_v2 m tm
    (pw_protocol_native0_type_to_v2 root tm ctx x) == x

/-- Property values that survive the round trip: a translatable Id, a
Choice of one of the five types with zero flags whose Id elements are
translatable (a Choice-None carrying exactly one value, invariant I5), or
any non-Id, non-Choice pod, which both walkers copy raw. -/
def goodPropVal (m : ClientTypes) (tm : TypeTable) (root : List TypeInfo)
    (infoP : Option (List TypeInfo)) (k : Nat) : Pod → Bool := fun v =>
  let ctx := propIdCtx root infoP k
  match v with
  | .idPod x => roundId m tm root ctx x
  | .choicePod ct cf val alts =>
    if ct = SPA_CHOICE_None then
      alts.isEmpty &&
        (match val with
         | .idPod x => roundId m tm root ctx x
         | _ => true)
    else
      decide (ct = SPA_CHOICE_Range ∨ ct = SPA_CHOICE_Step ∨
        ct = SPA_CHOICE_Enum ∨ ct = SPA_CHOICE_Flags) &&
      (cf == 0) &&
      (match val with
       | .idPod x =>
         roundId m tm root ctx x &&
           alts.all (fun a => match a with
             | .idPod y => roundId m tm root ctx y
             | _ => false)
       | _ => true)
  | _ => true

/-- Properties that survive the round trip: flags zero (remap_to_v2 never
reads them and remap_from_v2 emits zero), optionally excluding the Format
media keys, key translatable in the object's property context, value in
the surviving fragment. -/
def goodProp (m : ClientTypes) (tm : TypeTable) (root : List TypeInfo)
    (infoP : Option (List TypeInfo)) (banMedia : Bool) : Pod → Bool
  | .prop2Pod k fl v =>
    (fl == 0) &&
    (!banMedia || (k != SPA_FORMAT_mediaType && k != SPA_FORMAT_mediaSubtype)) &&
    roundId m tm root infoP k &&
    goodPropVal m tm root infoP k v
  | _ => false

def goodProps (m : ClientTypes) (tm : TypeTable) (root : List TypeInfo)
    (infoP : Option (List TypeInfo)) (banMedia : Bool) (l : List Pod) : Bool :=
  l.all (goodProp m tm root infoP banMedia)

/-- Values of Format's mediaType/mediaSubtype properties that survive: the
walkers reduce them to a single bare Id, so only a translatable Id —
possibly inside a degenerate Choice-None — round-trips. -/
def goodMediaVal (m : ClientTypes) (tm : TypeTable) (root : List TypeInfo)
    (ctx : Option (List TypeInfo)) : Pod → Bool
  | .idPod x => roundId m tm root ctx x
  | .choicePod ct _ (Pod.idPod x) alts =>
    (ct == SPA_CHOICE_None) && alts.isEmpty && roundId m tm root ctx x
  | _ => false

/-- The Id payload a media property reduces to. -/
def mediaHead : Pod → Nat
  | .idPod x => x
  | .choicePod _ _ (Pod.idPod x) _ => x
  | _ => 0

/-- Format object bodies that survive: the mediaType property first, then
optionally the mediaSubtype property, then ordinary properties avoiding
the media keys (remap_from_v2's two-Id counting forces this shape). -/
def goodFormatBody (m : ClientTypes) (tm : TypeTable) (root : List TypeInfo)
    (infoP : Option (List TypeInfo)) : List Pod → Bool
  | [] => true
  | [Pod.prop2Pod k fl v] =>
    (k == SPA_FORMAT_mediaType) && (fl == 0) &&
    goodMediaVal m tm root (propIdCtx root infoP k) v
  | Pod.prop2Pod k1 f1 v1 :: Pod.prop2Pod k2 f2 v2 :: rest =>
    (k1 == SPA_FORMAT_mediaType) && (f1 == 0) &&
    goodMediaVal m tm root (propIdCtx root infoP k1) v1 &&
    (k2 == SPA_FORMAT_mediaSubtype) && (f2 == 0) &&
    goodMediaVal m tm root (propIdCtx root infoP k2) v2 &&
    goodProps m tm root infoP true rest
  | _ => false

mutual

/-- The fragment of v2 POD trees on which the v2 → v0 → v2 round trip is
the identity modulo Choice-None collapse: translatable Ids, Structs of
such pods, and non-Command Objects with translatable swapped headers whose
bodies are surviving properties (Format objects additionally in the shape
goodFormatBody demands). Scalars and Arrays at stream positions are
excluded: both walkers drop them. -/
def goodPod (m : ClientTypes) (tm : TypeTable) (root : List TypeInfo)
    (info : Option (List TypeInfo)) : Pod → Bool
  | .idPod v => roundId m tm root info v
  | .structPod body => goodList m tm root info body
  | .objectPod t i body =>
    (t != SPA_TYPE_COMMAND_Node) &&
    roundId m tm root info t &&
    roundId m tm root (objIdCtx root info t i) i &&
    (if t = SPA_TYPE_OBJECT_Format then
      goodFormatBody m tm root (objPropCtx root info t) body
    else
      goodProps m tm root (objPropCtx root info t) false body)
  | _ => false

def goodList (m : ClientTypes) (tm : TypeTable) (root : List TypeInfo)
    (info : Option (List TypeInfo)) : List Pod → Bool
  | [] => true
  | p :: ps =>
    goodPod m tm root info p && goodList m tm root info ps

end

theorem remap_from_v2_list_eq_flatMap (m : ClientTypes) (tm : TypeTable)
    (l : List Pod) :
    remap_from_v2_list m tm l = l.flatMap (remap_from_v2 m tm) := by
  induction l with
  | nil => rfl
  | cons p ps ih => simp [remap_from_v2_list, ih]

theorem remap_to_v2_obj_eq_flatMap (tm : TypeTable) (root : List TypeInfo)
    (infoP : Option (List TypeInfo)) (t : Nat) (l : List Pod) :
    remap_to_v2_obj tm root infoP t l =
      l.flatMap (remap_to_v2_prop tm root infoP t) := by
  induction l with
  | nil => rfl
  | cons p ps ih => simp [remap_to_v2_obj, ih]

/-- Outside the Format two-Id window the object walker of remap_from_v2 is
plain child-wise remapping. -/
theorem remap_from_v2_obj_plain (m : ClientTypes) (tm : TypeTable)
    (ot count : Nat) (l : List Pod)
    (h : ¬ (ot = SPA_TYPE_OBJECT_Format ∧ count < 2)) :
    remap_from_v2_obj m tm ot count l = remap_from_v2_list m tm l := by
  induction l with
  | nil => rfl
  | cons p ps ih =>
    cases p <;>
      (rw [remap_from_v2_obj, if_neg h, remap_from_v2_list, ih] <;>
        (intro v hv; exact Pod.noConfusion hv))

theorem collapse_choice_none_nil (f : Nat) (v : Pod) :
    collapse (Pod.choicePod SPA_CHOICE_None f v []) = collapse v := by
  simp [collapse]

theorem collapse_choice_ne_none (ct f : Nat) (v : Pod) (alts : List Pod)
    (h : ct ≠ SPA_CHOICE_None) :
    collapse (Pod.choicePod ct f v alts) =
      Pod.choicePod ct f (collapse v) (collapseList alts) := by
  cases alts with
  | nil => simp [collapse, collapseList, h]
  | cons a as => rfl

theorem collapseList_ids (alts : List Pod)
    (h : ∀ a ∈ alts, ∃ y, a = Pod.idPod y) :
    collapseList alts = alts := by
  induction alts with
  | nil => rfl
  | cons a as ih =>
    rcases h a (List.mem_cons_self a as) with ⟨y, rfl⟩
    rw [collapseList, ih (fun b hb => h b (List.mem_cons_of_mem _ hb))]
    rfl

/-- Translated alternative lists come back unchanged when every element is
a translatable Id. -/
theorem alts_round (m : ClientTypes) (tm : TypeTable) (root : List TypeInfo)
    (ctx : Option (List TypeInfo)) (alts : List Pod)
    (h : ∀ a ∈ alts, ∃ y, a = Pod.idPod y ∧
      pw_protocol_native0_type_from_v2 m tm
        (pw_protocol_native0_type_to_v2 root tm ctx y) = y) :
    (alts.map (fun a =>
        Pod.idPod (pw_protocol_native0_type_to_v2 root tm ctx (idPayload a)))).map
      (fun a => Pod.idPod (pw_protocol_native0_type_from_v2 m tm (idPayload a)))
      = alts := by
  induction alts with
  | nil => rfl
  | cons a as ih =>
    rcases h a (List.mem_cons_self a as) with ⟨y, rfl, hy⟩
    simp only [List.map_cons]
    rw [ih (fun b hb => h b (List.mem_cons_of_mem _ hb))]
    simp [idPayload, hy]

/-- The choice-type computation of remap_from_v2's Choice arm, named for
the round-trip lemmas. -/
def ctOfFlags (flags : Nat) : Nat :=
  if flags.testBit 4 then rangeToChoice (flags % 16) else SPA_CHOICE_None

/-- The flags word remap_to_v2 synthesises from a choice type. -/
def toFlagsOf (ct : Nat) : Nat :=
  if ct = SPA_CHOICE_None then SPA_POD_PROP0_RANGE_NONE
  else if ct = SPA_CHOICE_Range then
    SPA_POD_PROP0_RANGE_MIN_MAX ||| SPA_POD_PROP0_FLAG_UNSET
  else if ct = SPA_CHOICE_Step then
    SPA_POD_PROP0_RANGE_STEP ||| SPA_POD_PROP0_FLAG_UNSET
  else if ct = SPA_CHOICE_Enum then
    SPA_POD_PROP0_RANGE_ENUM ||| SPA_POD_PROP0_FLAG_UNSET
  else if ct = SPA_CHOICE_Flags then
    SPA_POD_PROP0_RANGE_FLAGS ||| SPA_POD_PROP0_FLAG_UNSET
  else 0

/-- Range bits synthesised by remap_to_v2 decode back to the same choice
type in remap_from_v2, for each of the five v2 choice types. -/
theorem ctOf_toFlags_none : ctOfFlags (toFlagsOf SPA_CHOICE_None) = SPA_CHOICE_None := by decide

theorem ctOf_toFlags_range : ctOfFlags (toFlagsOf SPA_CHOICE_Range) = SPA_CHOICE_Range := by decide

theorem ctOf_toFlags_step : ctOfFlags (toFlagsOf SPA_CHOICE_Step) = SPA_CHOICE_Step := by decide

theorem ctOf_toFlags_enum : ctOfFlags (toFlagsOf SPA_CHOICE_Enum) = SPA_CHOICE_Enum := by decide

theorem ctOf_toFlags_flags : ctOfFlags (toFlagsOf SPA_CHOICE_Flags) = SPA_CHOICE_Flags := by decide

/-- remap_from_v2's Choice arm on a non-Id value: raw copy under the
translated key, choice type decoded from the flags. -/
theorem from_choice_non_id (m : ClientTypes) (tm : TypeTable)
    (key flags : Nat) (val : Pod) (alts : List Pod)
    (h : ∀ x, val ≠ Pod.idPod x) :
    remap_from_v2 m tm (Pod.choicePod key flags val alts) =
      [Pod.prop2Pod (pw_protocol_native0_type_from_v2 m tm key) 0
        (Pod.choicePod (ctOfFlags flags) 0 val alts)] := by
  cases val <;> first
    | exact absurd rfl (h _)
    | simp [remap_from_v2, ctOfFlags]

/-- remap_from_v2's Choice arm on an Id value: element-wise translation. -/
theorem from_choice_id (m : ClientTypes) (tm : TypeTable)
    (key flags x : Nat) (alts : List Pod) :
    remap_from_v2 m tm (Pod.choicePod key flags (Pod.idPod x) alts) =
      [Pod.prop2Pod (pw_protocol_native0_type_from_v2 m tm key) 0
        (Pod.choicePod (ctOfFlags flags) 0
          (Pod.idPod (pw_protocol_native0_type_from_v2 m tm x))
          (alts.map (fun a =>
            Pod.idPod (pw_protocol_native0_type_from_v2 m tm (idPayload a)))))] := by
  simp [remap_from_v2, ctOfFlags]

/-- remap_to_v2's property loop on a non-media property with a bare Id
value. -/
theorem to_prop_id (tm : TypeTable) (root : List TypeInfo)
    (infoP : Option (List TypeInfo)) (t k fl x : Nat)
    (hmedia : ¬ (t = SPA_TYPE_OBJECT_Format ∧
      (k = SPA_FORMAT_mediaType ∨ k = SPA_FORMAT_mediaSubtype))) :
    remap_to_v2_prop tm root infoP t (Pod.prop2Pod k fl (Pod.idPod x)) =
      [Pod.choicePod (pw_protocol_native0_type_to_v2 root tm infoP k)
        SPA_POD_PROP0_RANGE_NONE
        (Pod.idPod (pw_protocol_native0_type_to_v2 root tm
          (propIdCtx root infoP k) x)) []] := by
  simp only [remap_to_v2_prop]
  rw [if_neg hmedia]
  simp [spa_pod_get_values, propIdCtx]

/-- remap_to_v2's property loop on a non-media property with a bare
non-Id, non-Choice value: raw copy into a Prop with range NONE. -/
theorem to_prop_raw (tm : TypeTable) (root : List TypeInfo)
    (infoP : Option (List TypeInfo)) (t k fl : Nat) (v : Pod)
    (hmedia : ¬ (t = SPA_TYPE_OBJECT_Format ∧
      (k = SPA_FORMAT_mediaType ∨ k = SPA_FORMAT_mediaSubtype)))
    (hid : ∀ x, v ≠ Pod.idPod x)
    (hch : ∀ a b c d, v ≠ Pod.choicePod a b c d) :
    remap_to_v2_prop tm root infoP t (Pod.prop2Pod k fl v) =
      [Pod.choicePod (pw_protocol_native0_type_to_v2 root tm infoP k)
        SPA_POD_PROP0_RANGE_NONE v []] := by
  cases v <;> first
    | exact absurd rfl (hid _)
    | exact absurd rfl (hch _ _ _ _)
    | (simp only [remap_to_v2_prop]
       rw [if_neg hmedia]
       simp [spa_pod_get_values])

/-- remap_to_v2's property loop on a non-media property whose value is a
Choice with an Id default: translated key, synthesised flags, element-wise
translated values. -/
theorem to_prop_choice_id (tm : TypeTable) (root : List TypeInfo)
    (infoP : Option (List TypeInfo)) (t k fl ct cf x : Nat) (alts : List Pod)
    (hmedia : ¬ (t = SPA_TYPE_OBJECT_Format ∧
      (k = SPA_FORMAT_mediaType ∨ k = SPA_FORMAT_mediaSubtype))) :
    remap_to_v2_prop tm root infoP t
        (Pod.prop2Pod k fl (Pod.choicePod ct cf (Pod.idPod x) alts)) =
      [Pod.choicePod (pw_protocol_native0_type_to_v2 root tm infoP k)
        (toFlagsOf ct)
        (Pod.idPod (pw_protocol_native0_type_to_v2 root tm
          (propIdCtx root infoP k) x))
        (alts.map (fun a =>
          Pod.idPod (pw_protocol_native0_type_to_v2 root tm
            (propIdCtx root infoP k) (idPayload a))))] := by
  simp only [remap_to_v2_prop]
  rw [if_neg hmedia]
  simp only [spa_pod_get_values, toFlagsOf, propIdCtx]

/-- remap_to_v2's property loop on a non-media property whose value is a
Choice with a non-Id default: translated key, synthesised flags, raw
copied values. -/
theorem to_prop_choice_raw (tm : TypeTable) (root : List TypeInfo)
    (infoP : Option (List TypeInfo)) (t k fl ct cf : Nat) (val : Pod)
    (alts : List Pod)
    (hmedia : ¬ (t = SPA_TYPE_OBJECT_Format ∧
      (k = SPA_FORMAT_mediaType ∨ k = SPA_FORMAT_mediaSubtype)))
    (hid : ∀ x, val ≠ Pod.idPod x) :
    remap_to_v2_prop tm root infoP t
        (Pod.prop2Pod k fl (Pod.choicePod ct cf val alts)) =
      [Pod.choicePod (pw_protocol_native0_type_to_v2 root tm infoP k)
        (toFlagsOf ct) val alts] := by
  cases val <;> first
    | exact absurd rfl (hid _)
    | (simp only [remap_to_v2_prop]
       rw [if_neg hmedia]
       simp only [spa_pod_get_values, toFlagsOf])

theorem ctOf_rangeNone : ctOfFlags SPA_POD_PROP0_RANGE_NONE = SPA_CHOICE_None := by decide

/-- Unpack the Bool gate on Id-typed alternatives into per-element shape
and round-trip facts. -/
theorem all_ids_of_goodAlts (m : ClientTypes) (tm : TypeTable)
    (root : List TypeInfo) (ctx : Option (List TypeInfo)) (alts : List Pod)
    (h : alts.all (fun a => match a with
      | Pod.idPod y => roundId m tm root ctx y
      | _ => false) = true) :
    ∀ a ∈ alts, ∃ y, a = Pod.idPod y ∧
      pw_protocol_native0_type_from_v2 m tm
        (pw_protocol_native0_type_to_v2 root tm ctx y) = y := by
  intro a ha
  have hx := List.all_eq_true.mp h a ha
  cases a with
  | idPod y =>
    refine ⟨y, rfl, ?_⟩
    simpa [roundId, beq_iff_eq] using hx
  | nonePod => simp at hx
  | boolPod b => simp at hx
  | intPod v => simp at hx
  | longPod v => simp at hx
  | stringPod s => simp at hx
  | rectanglePod w hh => simp at hx
  | fractionPod a b => simp at hx
  | arrayPod ct es => simp at hx
  | structPod b => simp at hx
  | objectPod a b c => simp at hx
  | choicePod a b c d => simp at hx
  | prop2Pod a b c => simp at hx

/-- The per-property round trip: a surviving non-media property goes
through remap_to_v2's property loop and back through remap_from_v2 to the
same property modulo Choice-None collapse. -/
theorem roundProp (m : ClientTypes) (tm : TypeTable) (root : List TypeInfo)
    (infoP : Option (List TypeInfo)) (t k : Nat) (v : Pod)
    (hmedia : ¬ (t = SPA_TYPE_OBJECT_Format ∧
      (k = SPA_FORMAT_mediaType ∨ k = SPA_FORMAT_mediaSubtype)))
    (hkey : pw_protocol_native0_type_from_v2 m tm
      (pw_protocol_native0_type_to_v2 root tm infoP k) = k)
    (hv : goodPropVal m tm root infoP k v = true) :
    ((remap_to_v2_prop tm root infoP t (Pod.prop2Pod k 0 v)).flatMap
        (remap_from_v2 m tm)).map collapse =
      [collapse (Pod.prop2Pod k 0 v)] := by
  cases v with
  | idPod x =>
    have hx : pw_protocol_native0_type_from_v2 m tm
        (pw_protocol_native0_type_to_v2 root tm (propIdCtx root infoP k) x)
          = x := by
      simpa [goodPropVal, roundId, beq_iff_eq] using hv
    rw [to_prop_id tm root infoP t k 0 x hmedia]
    simp only [List.flatMap_cons, List.flatMap_nil, List.append_nil]
    rw [from_choice_id]
    simp [hkey, hx, ctOf_rangeNone, collapse_choice_none_nil, collapse]
  | choicePod ct cf val alts =>
    simp only [goodPropVal] at hv
    by_cases hct : ct = SPA_CHOICE_None
    · subst hct
      rw [if_pos rfl] at hv
      rw [Bool.and_eq_true] at hv
      rcases hv with ⟨hempty, hval⟩
      have halts : alts = [] := List.isEmpty_iff.mp hempty
      subst halts
      cases val with
      | idPod x =>
        have hx : pw_protocol_native0_type_from_v2 m tm
            (pw_protocol_native0_type_to_v2 root tm
              (propIdCtx root infoP k) x) = x := by
          simpa [roundId, beq_iff_eq] using hval
        rw [to_prop_choice_id tm root infoP t k 0 SPA_CHOICE_None cf x []
          hmedia]
        simp only [List.flatMap_cons, List.flatMap_nil, List.append_nil,
          List.map_nil]
        rw [from_choice_id]
        simp [hkey, hx, ctOf_toFlags_none, collapse_choice_none_nil, collapse]
      | nonePod =>
        rw [to_prop_choice_raw tm root infoP t k 0 SPA_CHOICE_None cf _ []
          hmedia (fun x h => Pod.noConfusion h)]
        simp only [List.flatMap_cons, List.flatMap_nil, List.append_nil]
        rw [from_choice_non_id m tm _ _ _ _ (fun x h => Pod.noConfusion h)]
        simp [hkey, ctOf_toFlags_none, collapse_choice_none_nil, collapse]
      | boolPod b =>
        rw [to_prop_choice_raw tm root infoP t k 0 SPA_CHOICE_None cf _ []
          hmedia (fun x h => Pod.noConfusion h)]
        simp only [List.flatMap_cons, List.flatMap_nil, List.append_nil]
        rw [from_choice_non_id m tm _ _ _ _ (fun x h => Pod.noConfusion h)]
        simp [hkey, ctOf_toFlags_none, collapse_choice_none_nil, collapse]
      | intPod z =>
        rw [to_prop_choice_raw tm root infoP t k 0 SPA_CHOICE_None cf _ []
          hmedia (fun x h => Pod.noConfusion h)]
        simp only [List.flatMap_cons, List.flatMap_nil, List.append_nil]
        rw [from_choice_non_id m tm _ _ _ _ (fun x h => Pod.noConfusion h)]
        simp [hkey, ctOf_toFlags_none, collapse_choice_none_nil, collapse]
      | longPod z =>
        rw [to_prop_choice_raw tm root infoP t k 0 SPA_CHOICE_None cf _ []
          hmedia (fun x h => Pod.noConfusion h)]
        simp only [List.flatMap_cons, List.flatMap_nil, List.append_nil]
        rw [from_choice_non_id m tm _ _ _ _ (fun x h => Pod.noConfusion h)]
        simp [hkey, ctOf_toFlags_none, collapse_choice_none_nil, collapse]
      | stringPod s =>
        rw [to_prop_choice_raw tm root infoP t k 0 SPA_CHOICE_None cf _ []
          hmedia (fun x h => Pod.noConfusion h)]
        simp only [List.flatMap_cons, List.flatMap_nil, List.append_nil]
        rw [from_choice_non_id m tm _ _ _ _ (fun x h => Pod.noConfusion h)]
        simp [hkey, ctOf_toFlags_none, collapse_choice_none_nil, collapse]
      | rectanglePod w hh =>
        rw [to_prop_choice_raw tm root infoP t k 0 SPA_CHOICE_None cf _ []
          hmedia (fun x h => Pod.noConfusion h)]
        simp only [List.flatMap_cons, List.flatMap_nil, List.append_nil]
        rw [from_choice_non_id m tm _ _ _ _ (fun x h => Pod.noConfusion h)]
        simp [hkey, ctOf_toFlags_none, collapse_choice_none_nil, collapse]
      | fractionPod a b =>
        rw [to_prop_choice_raw tm root infoP t k 0 SPA_CHOICE_None cf _ []
          hmedia (fun x h => Pod.noConfusion h)]
        simp only [List.flatMap_cons, List.flatMap_nil, List.append_nil]
        rw [from_choice_non_id m tm _ _ _ _ (fun x h => Pod.noConfusion h)]
        simp [hkey, ctOf_toFlags_none, collapse_choice_none_nil, collapse]
      | arrayPod ct2 es =>
        rw [to_prop_choice_raw tm root infoP t k 0 SPA_CHOICE_None cf _ []
          hmedia (fun x h => Pod.noConfusion h)]
        simp only [List.flatMap_cons, List.flatMap_nil, List.append_nil]
        rw [from_choice_non_id m tm _ _ _ _ (fun x h => Pod.noConfusion h)]
        simp [hkey, ctOf_toFlags_none, collapse_choice_none_nil, collapse]
      | structPod b =>
        rw [to_prop_choice_raw tm root infoP t k 0 SPA_CHOICE_None cf _ []
          hmedia (fun x h => Pod.noConfusion h)]
        simp only [List.flatMap_cons, List.flatMap_nil, List.append_nil]
        rw [from_choice_non_id m tm _ _ _ _ (fun x h => Pod.noConfusion h)]
        simp [hkey, ctOf_toFlags_none, collapse_choice_none_nil, collapse]
      | objectPod a b c =>
        rw [to_prop_choice_raw tm root infoP t k 0 SPA_CHOICE_None cf _ []
          hmedia (fun x h => Pod.noConfusion h)]
        simp only [List.flatMap_cons, List.flatMap_nil, List.append_nil]
        rw [from_choice_non_id m tm _ _ _ _ (fun x h => Pod.noConfusion h)]
        simp [hkey, ctOf_toFlags_none, collapse_choice_none_nil, collapse]
      | choicePod a b c d =>
        rw [to_prop_choice_raw tm root infoP t k 0 SPA_CHOICE_None cf _ []
          hmedia (fun x h => Pod.noConfusion h)]
        simp only [List.flatMap_cons, List.flatMap_nil, List.append_nil]
        rw [from_choice_non_id m tm _ _ _ _ (fun x h => Pod.noConfusion h)]
        simp [hkey, ctOf_toFlags_none, collapse_choice_none_nil, collapse]
      | prop2Pod a b c =>
        rw [to_prop_choice_raw tm root infoP t k 0 SPA_CHOICE_None cf _ []
          hmedia (fun x h => Pod.noConfusion h)]
        simp only [List.flatMap_cons, List.flatMap_nil, List.append_nil]
        rw [from_choice_non_id m tm _ _ _ _ (fun x h => Pod.noConfusion h)]
        simp [hkey, ctOf_toFlags_none, collapse_choice_none_nil, collapse]
    · rw [if_neg hct] at hv
      rw [Bool.and_eq_true] at hv
      rcases hv with ⟨hv1, hvval⟩
      rw [Bool.and_eq_true] at hv1
      rcases hv1 with ⟨hctmem, hcf⟩
      have hcf0 : cf = 0 := by simpa [beq_iff_eq] using hcf
      subst hcf0
      have hct4 : ct = SPA_CHOICE_Range ∨ ct = SPA_CHOICE_Step ∨
          ct = SPA_CHOICE_Enum ∨ ct = SPA_CHOICE_Flags :=
        of_decide_eq_true hctmem
      have hctne : ct ≠ SPA_CHOICE_None := by
        rcases hct4 with h4 | h4 | h4 | h4 <;> subst h4 <;> decide
      have hflagsdec : ctOfFlags (toFlagsOf ct) = ct := by
        rcases hct4 with h4 | h4 | h4 | h4 <;> subst h4 <;> decide
      cases val with
      | idPod x =>
        rw [Bool.and_eq_true] at hvval
        rcases hvval with ⟨hxx, haltsx⟩
        have hx : pw_protocol_native0_type_from_v2 m tm
            (pw_protocol_native0_type_to_v2 root tm
              (propIdCtx root infoP k) x) = x := by
          simpa [roundId, beq_iff_eq] using hxx
        have hall := all_ids_of_goodAlts m tm root (propIdCtx root infoP k)
          alts haltsx
        rw [to_prop_choice_id tm root infoP t k 0 ct 0 x alts hmedia]
        simp only [List.flatMap_cons, List.flatMap_nil, List.append_nil]
        rw [from_choice_id]
        rw [hkey, hflagsdec, hx]
        rw [alts_round m tm root (propIdCtx root infoP k) alts hall]
        have hids : ∀ a ∈ alts, ∃ y, a = Pod.idPod y := by
          intro a ha
          rcases hall a ha with ⟨y, hy, _⟩
          exact ⟨y, hy⟩
        simp only [List.map_cons, List.map_nil, collapse,
          collapse_choice_ne_none ct 0 _ alts hctne,
          collapseList_ids alts hids]
      | nonePod =>
        rw [to_prop_choice_raw tm root infoP t k 0 ct 0 _ alts hmedia
          (fun x h => Pod.noConfusion h)]
        simp only [List.flatMap_cons, List.flatMap_nil, List.append_nil]
        rw [from_choice_non_id m tm _ _ _ _ (fun x h => Pod.noConfusion h)]
        rw [hkey, hflagsdec]
        simp only [List.map_cons, List.map_nil, collapse,
          collapse_choice_ne_none ct 0 _ alts hctne]
      | boolPod b =>
        rw [to_prop_choice_raw tm root infoP t k 0 ct 0 _ alts hmedia
          (fun x h => Pod.noConfusion h)]
        simp only [List.flatMap_cons, List.flatMap_nil, List.append_nil]
        rw [from_choice_non_id m tm _ _ _ _ (fun x h => Pod.noConfusion h)]
        rw [hkey, hflagsdec]
        simp only [List.map_cons, List.map_nil, collapse,
          collapse_choice_ne_none ct 0 _ alts hctne]
      | intPod z =>
        rw [to_prop_choice_raw tm root infoP t k 0 ct 0 _ alts hmedia
          (fun x h => Pod.noConfusion h)]
        simp only [List.flatMap_cons, List.flatMap_nil, List.append_nil]
        rw [from_choice_non_id m tm _ _ _ _ (fun x h => Pod.noConfusion h)]
        rw [hkey, hflagsdec]
        simp only [List.map_cons, List.map_nil, collapse,
          collapse_choice_ne_none ct 0 _ alts hctne]
      | longPod z =>
        rw [to_prop_choice_raw tm root infoP t k 0 ct 0 _ alts hmedia
          (fun x h => Pod.noConfusion h)]
        simp only [List.flatMap_cons, List.flatMap_nil, List.append_nil]
        rw [from_choice_non_id m tm _ _ _ _ (fun x h => Pod.noConfusion h)]
        rw [hkey, hflagsdec]
        simp only [List.map_cons, List.map_nil, collapse,
          collapse_choice_ne_none ct 0 _ alts hctne]
      | stringPod s =>
        rw [to_prop_choice_raw tm root infoP t k 0 ct 0 _ alts hmedia
          (fun x h => Pod.noConfusion h)]
        simp only [List.flatMap_cons, List.flatMap_nil, List.append_nil]
        rw [from_choice_non_id m tm _ _ _ _ (fun x h => Pod.noConfusion h)]
        rw [hkey, hflagsdec]
        simp only [List.map_cons, List.map_nil, collapse,
          collapse_choice_ne_none ct 0 _ alts hctne]
      | rectanglePod w hh =>
        rw [to_prop_choice_raw tm root infoP t k 0 ct 0 _ alts hmedia
          (fun x h => Pod.noConfusion h)]
        simp only [List.flatMap_cons, List.flatMap_nil, List.append_nil]
        rw [from_choice_non_id m tm _ _ _ _ (fun x h => Pod.noConfusion h)]
        rw [hkey, hflagsdec]
        simp only [List.map_cons, List.map_nil, collapse,
          collapse_choice_ne_none ct 0 _ alts hctne]
      | fractionPod a b =>
        rw [to_prop_choice_raw tm root infoP t k 0 ct 0 _ alts hmedia
          (fun x h => Pod.noConfusion h)]
        simp only [List.flatMap_cons, List.flatMap_nil, List.append_nil]
        rw [from_choice_non_id m tm _ _ _ _ (fun x h => Pod.noConfusion h)]
        rw [hkey, hflagsdec]
        simp only [List.map_cons, List.map_nil, collapse,
          collapse_choice_ne_none ct 0 _ alts hctne]
      | arrayPod ct2 es =>
        rw [to_prop_choice_raw tm root infoP t k 0 ct 0 _ alts hmedia
          (fun x h => Pod.noConfusion h)]
        simp only [List.flatMap_cons, List.flatMap_nil, List.append_nil]
        rw [from_choice_non_id m tm _ _ _ _ (fun x h => Pod.noConfusion h)]
        rw [hkey, hflagsdec]
        simp only [List.map_cons, List.map_nil, collapse,
          collapse_choice_ne_none ct 0 _ alts hctne]
      | structPod b =>
        rw [to_prop_choice_raw tm root infoP t k 0 ct 0 _ alts hmedia
          (fun x h => Pod.noConfusion h)]
        simp only [List.flatMap_cons, List.flatMap_nil, List.append_nil]
        rw [from_choice_non_id m tm _ _ _ _ (fun x h => Pod.noConfusion h)]
        rw [hkey, hflagsdec]
        simp only [List.map_cons, List.map_nil, collapse,
          collapse_choice_ne_none ct 0 _ alts hctne]
      | objectPod a b c =>
        rw [to_prop_choice_raw tm root infoP t k 0 ct 0 _ alts hmedia
          (fun x h => Pod.noConfusion h)]
        simp only [List.flatMap_cons, List.flatMap_nil, List.append_nil]
        rw [from_choice_non_id m tm _ _ _ _ (fun x h => Pod.noConfusion h)]
        rw [hkey, hflagsdec]
        simp only [List.map_cons, List.map_nil, collapse,
          collapse_choice_ne_none ct 0 _ alts hctne]
      | choicePod a b c d =>
        rw [to_prop_choice_raw tm root infoP t k 0 ct 0 _ alts hmedia
          (fun x h => Pod.noConfusion h)]
        simp only [List.flatMap_cons, List.flatMap_nil, List.append_nil]
        rw [from_choice_non_id m tm _ _ _ _ (fun x h => Pod.noConfusion h)]
        rw [hkey, hflagsdec]
        simp only [List.map_cons, List.map_nil, collapse,
          collapse_choice_ne_none ct 0 _ alts hctne]
      | prop2Pod a b c =>
        rw [to_prop_choice_raw tm root infoP t k 0 ct 0 _ alts hmedia
          (fun x h => Pod.noConfusion h)]
        simp only [List.flatMap_cons, List.flatMap_nil, List.append_nil]
        rw [from_choice_non_id m tm _ _ _ _ (fun x h => Pod.noConfusion h)]
        rw [hkey, hflagsdec]
        simp only [List.map_cons, List.map_nil, collapse,
          collapse_choice_ne_none ct 0 _ alts hctne]
  | nonePod =>
    rw [to_prop_raw tm root infoP t k 0 _ hmedia
      (fun x h => Pod.noConfusion h) (fun a b c d h => Pod.noConfusion h)]
    simp only [List.flatMap_cons, List.flatMap_nil, List.append_nil]
    rw [from_choice_non_id m tm _ _ _ _ (fun x h => Pod.noConfusion h)]
    simp [hkey, ctOf_rangeNone, collapse_choice_none_nil, collapse]
  | boolPod b =>
    rw [to_prop_raw tm root infoP t k 0 _ hmedia
      (fun x h => Pod.noConfusion h) (fun a b c d h => Pod.noConfusion h)]
    simp only [List.flatMap_cons, List.flatMap_nil, List.append_nil]
    rw [from_choice_non_id m tm _ _ _ _ (fun x h => Pod.noConfusion h)]
    simp [hkey, ctOf_rangeNone, collapse_choice_none_nil, collapse]
  | intPod z =>
    rw [to_prop_raw tm root infoP t k 0 _ hmedia
      (fun x h => Pod.noConfusion h) (fun a b c d h => Pod.noConfusion h)]
    simp only [List.flatMap_cons, List.flatMap_nil, List.append_nil]
    rw [from_choice_non_id m tm _ _ _ _ (fun x h => Pod.noConfusion h)]
    simp [hkey, ctOf_rangeNone, collapse_choice_none_nil, collapse]
  | longPod z =>
    rw [to_prop_raw tm root infoP t k 0 _ hmedia
      (fun x h => Pod.noConfusion h) (fun a b c d h => Pod.noConfusion h)]
    simp only [List.flatMap_cons, List.flatMap_nil, List.append_nil]
    rw [from_choice_non_id m tm _ _ _ _ (fun x h => Pod.noConfusion h)]
    simp [hkey, ctOf_rangeNone, collapse_choice_none_nil, collapse]
  | stringPod s =>
    rw [to_prop_raw tm root infoP t k 0 _ hmedia
      (fun x h => Pod.noConfusion h) (fun a b c d h => Pod.noConfusion h)]
    simp only [List.flatMap_cons, List.flatMap_nil, List.append_nil]
    rw [from_choice_non_id m tm _ _ _ _ (fun x h => Pod.noConfusion h)]
    simp [hkey, ctOf_rangeNone, collapse_choice_none_nil, collapse]
  | rectanglePod w hh =>
    rw [to_prop_raw tm root infoP t k 0 _ hmedia
      (fun x h => Pod.noConfusion h) (fun a b c d h => Pod.noConfusion h)]
    simp only [List.flatMap_cons, List.flatMap_nil, List.append_nil]
    rw [from_choice_non_id m tm _ _ _ _ (fun x h => Pod.noConfusion h)]
    simp [hkey, ctOf_rangeNone, collapse_choice_none_nil, collapse]
  | fractionPod a b =>
    rw [to_prop_raw tm root infoP t k 0 _ hmedia
      (fun x h => Pod.noConfusion h) (fun a b c d h => Pod.noConfusion h)]
    simp only [List.flatMap_cons, List.flatMap_nil, List.append_nil]
    rw [from_choice_non_id m tm _ _ _ _ (fun x h => Pod.noConfusion h)]
    simp [hkey, ctOf_rangeNone, collapse_choice_none_nil, collapse]
  | arrayPod ct2 es =>
    rw [to_prop_raw tm root infoP t k 0 _ hmedia
      (fun x h => Pod.noConfusion h) (fun a b c d h => Pod.noConfusion h)]
    simp only [List.flatMap_cons, List.flatMap_nil, List.append_nil]
    rw [from_choice_non_id m tm _ _ _ _ (fun x h => Pod.noConfusion h)]
    simp [hkey, ctOf_rangeNone, collapse_choice_none_nil, collapse]
  | structPod b =>
    rw [to_prop_raw tm root infoP t k 0 _ hmedia
      (fun x h => Pod.noConfusion h) (fun a b c d h => Pod.noConfusion h)]
    simp only [List.flatMap_cons, List.flatMap_nil, List.append_nil]
    rw [from_choice_non_id m tm _ _ _ _ (fun x h => Pod.noConfusion h)]
    simp [hkey, ctOf_rangeNone, collapse_choice_none_nil, collapse]
  | objectPod a b c =>
    rw [to_prop_raw tm root infoP t k 0 _ hmedia
      (fun x h => Pod.noConfusion h) (fun a b c d h => Pod.noConfusion h)]
    simp only [List.flatMap_cons, List.flatMap_nil, List.append_nil]
    rw [from_choice_non_id m tm _ _ _ _ (fun x h => Pod.noConfusion h)]
    simp [hkey, ctOf_rangeNone, collapse_choice_none_nil, collapse]
  | prop2Pod a b c =>
    rw [to_prop_raw tm root infoP t k 0 _ hmedia
      (fun x h => Pod.noConfusion h) (fun a b c d h => Pod.noConfusion h)]
    simp only [List.flatMap_cons, List.flatMap_nil, List.append_nil]
    rw [from_choice_non_id m tm _ _ _ _ (fun x h => Pod.noConfusion h)]
    simp [hkey, ctOf_rangeNone, collapse_choice_none_nil, collapse]

/-- The round trip over a generic property list: either the object is not
a Format object, or the media keys are banned (the tail of a Format body),
so every property takes the Prop-emitting branch. -/
theorem roundProps (m : ClientTypes) (tm : TypeTable) (root : List TypeInfo)
    (infoP : Option (List TypeInfo)) (t : Nat) (banMedia : Bool)
    (body : List Pod)
    (hmt : t ≠ SPA_TYPE_OBJECT_Format ∨ banMedia = true)
    (h : goodProps m tm root infoP banMedia body = true) :
    ((remap_to_v2_obj tm root infoP t body).flatMap
        (remap_from_v2 m tm)).map collapse = body.map collapse := by
  induction body with
  | nil => rfl
  | cons p ps ih =>
    rw [goodProps, List.all_cons, Bool.and_eq_true] at h
    rcases h with ⟨hp, hps⟩
    cases p with
    | prop2Pod k fl v =>
      rw [goodProp, Bool.and_eq_true, Bool.and_eq_true, Bool.and_eq_true]
        at hp
      rcases hp with ⟨⟨⟨hfl, hban⟩, hkey⟩, hval⟩
      have hfl0 : fl = 0 := by simpa [beq_iff_eq] using hfl
      subst hfl0
      have hkey' : pw_protocol_native0_type_from_v2 m tm
          (pw_protocol_native0_type_to_v2 root tm infoP k) = k := by
        simpa [roundId, beq_iff_eq] using hkey
      have hmedia : ¬ (t = SPA_TYPE_OBJECT_Format ∧
          (k = SPA_FORMAT_mediaType ∨ k = SPA_FORMAT_mediaSubtype)) := by
        rintro ⟨hF, hk12⟩
        rcases hmt with hmt | hmt
        · exact hmt hF
        · subst hmt
          rw [Bool.not_true, Bool.false_or, Bool.and_eq_true] at hban
          rcases hban with ⟨hb1, hb2⟩
          rcases hk12 with hk1 | hk2
          · exact absurd hk1 (by simpa using hb1)
          · exact absurd hk2 (by simpa using hb2)
      rw [remap_to_v2_obj, List.flatMap_append, List.map_append]
      rw [roundProp m tm root infoP t k v hmedia hkey' hval]
      rw [ih (by simpa [goodProps] using hps)]
      rfl
    | nonePod => simp [goodProp] at hp
    | boolPod b => simp [goodProp] at hp
    | idPod x => simp [goodProp] at hp
    | intPod z => simp [goodProp] at hp
    | longPod z => simp [goodProp] at hp
    | stringPod s => simp [goodProp] at hp
    | rectanglePod w hh => simp [goodProp] at hp
    | fractionPod a b => simp [goodProp] at hp
    | arrayPod ct es => simp [goodProp] at hp
    | structPod b => simp [goodProp] at hp
    | objectPod a b c => simp [goodProp] at hp
    | choicePod a b c d => simp [goodProp] at hp

/-- remap_to_v2's property loop on Format's media properties reduces the
value to one bare translated Id. -/
theorem to_prop_media (tm : TypeTable) (root : List TypeInfo)
    (infoP : Option (List TypeInfo)) (k fl : Nat) (v : Pod)
    (hk : k = SPA_FORMAT_mediaType ∨ k = SPA_FORMAT_mediaSubtype)
    (hshape : (∃ x, v = Pod.idPod x) ∨
      (∃ ct cf x alts, v = Pod.choicePod ct cf (Pod.idPod x) alts)) :
    remap_to_v2_prop tm root infoP SPA_TYPE_OBJECT_Format
        (Pod.prop2Pod k fl v) =
      [Pod.idPod (pw_protocol_native0_type_to_v2 root tm
        (propIdCtx root infoP k) (mediaHead v))] := by
  rcases hshape with ⟨x, rfl⟩ | ⟨ct, cf, x, alts, rfl⟩ <;>
    (simp only [remap_to_v2_prop]
     rw [if_pos (show True ∧ (k = SPA_FORMAT_mediaType ∨
       k = SPA_FORMAT_mediaSubtype) from ⟨trivial, hk⟩)]
     simp [spa_pod_get_values, mediaHead, propIdCtx])

/-- Unpack the gate on a media property value: its shape, its collapse,
and the round trip of its Id payload. -/
theorem goodMediaVal_elim (m : ClientTypes) (tm : TypeTable)
    (root : List TypeInfo) (ctx : Option (List TypeInfo)) (v : Pod)
    (h : goodMediaVal m tm root ctx v = true) :
    ((∃ x, v = Pod.idPod x) ∨
      (∃ ct cf x alts, v = Pod.choicePod ct cf (Pod.idPod x) alts)) ∧
    collapse v = Pod.idPod (mediaHead v) ∧
    pw_protocol_native0_type_from_v2 m tm
      (pw_protocol_native0_type_to_v2 root tm ctx (mediaHead v)) =
        mediaHead v := by
  cases v with
  | idPod x =>
    refine ⟨Or.inl ⟨x, rfl⟩, rfl, ?_⟩
    simpa [goodMediaVal, roundId, beq_iff_eq] using h
  | choicePod ct cf val alts =>
    cases val with
    | idPod x =>
      rw [goodMediaVal, Bool.and_eq_true, Bool.and_eq_true] at h
      rcases h with ⟨⟨hct, hempty⟩, hround⟩
      have hct0 : ct = SPA_CHOICE_None := by simpa [beq_iff_eq] using hct
      have hae : alts = [] := List.isEmpty_iff.mp hempty
      subst hct0
      subst hae
      refine ⟨Or.inr ⟨SPA_CHOICE_None, cf, x, [], rfl⟩, ?_, ?_⟩
      · rw [collapse_choice_none_nil]
        rfl
      · simpa [mediaHead, roundId, beq_iff_eq] using hround
    | nonePod => simp [goodMediaVal] at h
    | boolPod b => simp [goodMediaVal] at h
    | intPod z => simp [goodMediaVal] at h
    | longPod z => simp [goodMediaVal] at h
    | stringPod s => simp [goodMediaVal] at h
    | rectanglePod w hh => simp [goodMediaVal] at h
    | fractionPod a b => simp [goodMediaVal] at h
    | arrayPod ct2 es => simp [goodMediaVal] at h
    | structPod b => simp [goodMediaVal] at h
    | objectPod a b c => simp [goodMediaVal] at h
    | choicePod a b c d => simp [goodMediaVal] at h
    | prop2Pod a b c => simp [goodMediaVal] at h
  | nonePod => simp [goodMediaVal] at h
  | boolPod b => simp [goodMediaVal] at h
  | intPod z => simp [goodMediaVal] at h
  | longPod z => simp [goodMediaVal] at h
  | stringPod s => simp [goodMediaVal] at h
  | rectanglePod w hh => simp [goodMediaVal] at h
  | fractionPod a b => simp [goodMediaVal] at h
  | arrayPod ct es => simp [goodMediaVal] at h
  | structPod b => simp [goodMediaVal] at h
  | objectPod a b c => simp [goodMediaVal] at h
  | prop2Pod a b c => simp [goodMediaVal] at h

/-- The round trip over a Format object body: the two bare Ids emitted for
the media properties are counted back into mediaType/mediaSubtype
properties, and the remaining properties round-trip property-wise. -/
theorem roundFormatBody (m : ClientTypes) (tm : TypeTable)
    (root : List TypeInfo) (infoP : Option (List TypeInfo)) (body : List Pod)
    (h : goodFormatBody m tm root infoP body = true) :
    (remap_from_v2_obj m tm SPA_TYPE_OBJECT_Format 0
        (remap_to_v2_obj tm root infoP SPA_TYPE_OBJECT_Format body)).map
        collapse = body.map collapse := by
  cases body with
  | nil => rfl
  | cons p1 tail =>
    cases tail with
    | nil =>
      cases p1 with
      | prop2Pod k fl v =>
        rw [goodFormatBody, Bool.and_eq_true, Bool.and_eq_true] at h
        rcases h with ⟨⟨hk, hfl⟩, hval⟩
        have hk1 : k = SPA_FORMAT_mediaType := by simpa [beq_iff_eq] using hk
        have hfl0 : fl = 0 := by simpa [beq_iff_eq] using hfl
        subst hk1
        subst hfl0
        rcases goodMediaVal_elim m tm root _ v hval with ⟨hshape, hcol, hround⟩
        rw [remap_to_v2_obj, remap_to_v2_obj,
          to_prop_media tm root infoP _ 0 v (Or.inl rfl) hshape]
        rw [List.singleton_append, remap_from_v2_obj]
        rw [if_pos (show SPA_TYPE_OBJECT_Format = SPA_TYPE_OBJECT_Format ∧
          (0 : Nat) < 2 from ⟨rfl, by decide⟩)]
        simp only [reduceIte, remap_from_v2_obj, List.map_cons, List.map_nil,
          collapse, hround, hcol]
        simp [collapse]
      | nonePod => simp [goodFormatBody] at h
      | boolPod b => simp [goodFormatBody] at h
      | idPod x => simp [goodFormatBody] at h
      | intPod z => simp [goodFormatBody] at h
      | longPod z => simp [goodFormatBody] at h
      | stringPod s => simp [goodFormatBody] at h
      | rectanglePod w hh => simp [goodFormatBody] at h
      | fractionPod a b => simp [goodFormatBody] at h
      | arrayPod ct es => simp [goodFormatBody] at h
      | structPod b => simp [goodFormatBody] at h
      | objectPod a b c => simp [goodFormatBody] at h
      | choicePod a b c d => simp [goodFormatBody] at h
    | cons p2 rest =>
      cases p1 with
      | prop2Pod k1 f1 v1 =>
        cases p2 with
        | prop2Pod k2 f2 v2 =>
          rw [goodFormatBody, Bool.and_eq_true, Bool.and_eq_true,
            Bool.and_eq_true, Bool.and_eq_true, Bool.and_eq_true,
            Bool.and_eq_true] at h
          rcases h with ⟨⟨⟨⟨⟨⟨hk1, hf1⟩, hv1⟩, hk2⟩, hf2⟩, hv2⟩, hrest⟩
          have hk1e : k1 = SPA_FORMAT_mediaType := by
            simpa [beq_iff_eq] using hk1
          have hk2e : k2 = SPA_FORMAT_mediaSubtype := by
            simpa [beq_iff_eq] using hk2
          have hf1e : f1 = 0 := by simpa [beq_iff_eq] using hf1
          have hf2e : f2 = 0 := by simpa [beq_iff_eq] using hf2
          subst hk1e
          subst hk2e
          subst hf1e
          subst hf2e
          rcases goodMediaVal_elim m tm root _ v1 hv1 with
            ⟨hshape1, hcol1, hround1⟩
          rcases goodMediaVal_elim m tm root _ v2 hv2 with
            ⟨hshape2, hcol2, hround2⟩
          rw [remap_to_v2_obj,
            to_prop_media tm root infoP _ 0 v1 (Or.inl rfl) hshape1]
          rw [remap_to_v2_obj,
            to_prop_media tm root infoP _ 0 v2 (Or.inr rfl) hshape2]
          rw [List.singleton_append, List.singleton_append]
          rw [remap_from_v2_obj]
          rw [if_pos (show SPA_TYPE_OBJECT_Format = SPA_TYPE_OBJECT_Format ∧
            (0 : Nat) < 2 from ⟨rfl, by decide⟩)]
          rw [remap_from_v2_obj]
          rw [if_pos (show SPA_TYPE_OBJECT_Format = SPA_TYPE_OBJECT_Format ∧
            (0 : Nat) + 1 < 2 from ⟨rfl, by decide⟩)]
          rw [remap_from_v2_obj_plain m tm SPA_TYPE_OBJECT_Format
            (0 + 1 + 1) _ (by rintro ⟨h1, h2⟩; exact absurd h2 (by decide))]
          rw [remap_from_v2_list_eq_flatMap]
          have htail := roundProps m tm root infoP SPA_TYPE_OBJECT_Format
            true rest (Or.inr rfl) hrest
          simp only [reduceIte, List.map_append, List.map_cons, List.map_nil,
            List.singleton_append, List.nil_append]
          rw [hround1, hround2, htail]
          simp [collapse, hcol1, hcol2]
        | nonePod => simp [goodFormatBody] at h
        | boolPod b => simp [goodFormatBody] at h
        | idPod x => simp [goodFormatBody] at h
        | intPod z => simp [goodFormatBody] at h
        | longPod z => simp [goodFormatBody] at h
        | stringPod s => simp [goodFormatBody] at h
        | rectanglePod w hh => simp [goodFormatBody] at h
        | fractionPod a b => simp [goodFormatBody] at h
        | arrayPod ct es => simp [goodFormatBody] at h
        | structPod b => simp [goodFormatBody] at h
        | objectPod a b c => simp [goodFormatBody] at h
        | choicePod a b c d => simp [goodFormatBody] at h
      | nonePod => simp [goodFormatBody] at h
      | boolPod b => simp [goodFormatBody] at h
      | idPod x => simp [goodFormatBody] at h
      | intPod z => simp [goodFormatBody] at h
      | longPod z => simp [goodFormatBody] at h
      | stringPod s => simp [goodFormatBody] at h
      | rectanglePod w hh => simp [goodFormatBody] at h
      | fractionPod a b => simp [goodFormatBody] at h
      | arrayPod ct es => simp [goodFormatBody] at h
      | structPod b => simp [goodFormatBody] at h
      | objectPod a b c => simp [goodFormatBody] at h
      | choicePod a b c d => simp [goodFormatBody] at h

/-- remap_to_v2's generic (non-Command) object branch, phrased with the
named context helpers. -/
theorem to_v2_object_branch (m : ClientTypes) (tm : TypeTable)
    (root : List TypeInfo) (info : Option (List TypeInfo)) (t i : Nat)
    (body : List Pod) (hne : t ≠ SPA_TYPE_COMMAND_Node) :
    remap_to_v2 m tm root info (Pod.objectPod t i body) =
      [Pod.objectPod
        (pw_protocol_native0_type_to_v2 root tm (objIdCtx root info t i) i)
        (pw_protocol_native0_type_to_v2 root tm info t)
        (remap_to_v2_obj tm root (objPropCtx root info t) t body)] := by
  simp only [remap_to_v2]
  rw [if_neg hne]
  simp [objIdCtx, rowZeroOf, objPropCtx]

/-- remap_from_v2's object arm: swapped translated header, body walked
with the translated object type. -/
theorem from_v2_object_eval (m : ClientTypes) (tm : TypeTable)
    (otypeW oidW : Nat) (s : List Pod) :
    remap_from_v2 m tm (Pod.objectPod otypeW oidW s) =
      [Pod.objectPod (pw_protocol_native0_type_from_v2 m tm oidW)
        (pw_protocol_native0_type_from_v2 m tm otypeW)
        (remap_from_v2_obj m tm
          (pw_protocol_native0_type_from_v2 m tm oidW) 0 s)] := rfl

/-- The round trip on the surviving fragment, by strong induction on tree
size. Recursion only descends through Struct children: object bodies are
handled property-wise, because remap copies property payloads shallowly. -/
theorem roundPod_aux (m : ClientTypes) (tm : TypeTable)
    (root : List TypeInfo) :
    ∀ n (info : Option (List TypeInfo)) (T : Pod), sizeOf T ≤ n →
      goodPod m tm root info T = true →
      ((remap_to_v2 m tm root info T).flatMap (remap_from_v2 m tm)).map
        collapse = [collapse T] := by
  intro n
  induction n with
  | zero =>
    intro info T hsz hgood
    cases T <;> simp at hsz
  | succ n ih =>
    intro info T hsz hgood
    cases T with
    | idPod v =>
      have hx : pw_protocol_native0_type_from_v2 m tm
          (pw_protocol_native0_type_to_v2 root tm info v) = v := by
        simpa [goodPod, roundId, beq_iff_eq] using hgood
      simp [remap_to_v2, remap_from_v2, hx, collapse]
    | structPod body =>
      rw [goodPod] at hgood
      have hb : sizeOf body ≤ n := by
        have h2 : sizeOf (Pod.structPod body) ≤ n + 1 := hsz
        simp only [Pod.structPod.sizeOf_spec] at h2
        omega
      have hsizes : ∀ p ∈ body, sizeOf p ≤ n := by
        intro p hp
        have h1 := List.sizeOf_lt_of_mem hp
        omega
      have hlist : ∀ l : List Pod, (∀ p ∈ l, sizeOf p ≤ n) →
          goodList m tm root info l = true →
          ((remap_to_v2_list m tm root info l).flatMap
            (remap_from_v2 m tm)).map collapse = l.map collapse := by
        intro l
        induction l with
        | nil =>
          intro _ _
          rfl
        | cons p ps ihl =>
          intro hsz2 hg
          rw [goodList, Bool.and_eq_true] at hg
          rcases hg with ⟨hp, hps⟩
          rw [remap_to_v2_list, List.flatMap_append, List.map_append]
          rw [ih info p (hsz2 p (List.mem_cons_self p ps)) hp]
          rw [ihl (fun q hq => hsz2 q (List.mem_cons_of_mem _ hq)) hps]
          rfl
      simp only [remap_to_v2, List.flatMap_cons, List.flatMap_nil,
        List.append_nil, remap_from_v2, List.map_cons, List.map_nil,
        collapse]
      rw [remap_from_v2_list_eq_flatMap, collapseList_eq_map,
        collapseList_eq_map, hlist body hsizes hgood]
    | objectPod t i body =>
      rw [goodPod, Bool.and_eq_true, Bool.and_eq_true, Bool.and_eq_true]
        at hgood
      rcases hgood with ⟨⟨⟨hne, ht⟩, hi⟩, hbody⟩
      have hne' : t ≠ SPA_TYPE_COMMAND_Node := by simpa using hne
      have ht' : pw_protocol_native0_type_from_v2 m tm
          (pw_protocol_native0_type_to_v2 root tm info t) = t := by
        simpa [roundId, beq_iff_eq] using ht
      have hi' : pw_protocol_native0_type_from_v2 m tm
          (pw_protocol_native0_type_to_v2 root tm
            (objIdCtx root info t i) i) = i := by
        simpa [roundId, beq_iff_eq] using hi
      rw [to_v2_object_branch m tm root info t i body hne']
      simp only [List.flatMap_cons, List.flatMap_nil, List.append_nil]
      rw [from_v2_object_eval]
      rw [ht', hi']
      simp only [List.map_cons, List.map_nil, collapse]
      by_cases hF : t = SPA_TYPE_OBJECT_Format
      · subst hF
        rw [if_pos rfl] at hbody
        rw [collapseList_eq_map, collapseList_eq_map,
          roundFormatBody m tm root _ body hbody]
      · rw [if_neg hF] at hbody
        rw [remap_from_v2_obj_plain m tm t 0 _
          (by rintro ⟨h1, _⟩; exact hF h1)]
        rw [remap_from_v2_list_eq_flatMap, collapseList_eq_map,
          collapseList_eq_map,
          roundProps m tm root _ t false body (Or.inl hF) hbody]
    | nonePod => simp [goodPod] at hgood
    | boolPod b => simp [goodPod] at hgood
    | intPod z => simp [goodPod] at hgood
    | longPod z => simp [goodPod] at hgood
    | stringPod s => simp [goodPod] at hgood
    | rectanglePod w hh => simp [goodPod] at hgood
    | fractionPod a b => simp [goodPod] at hgood
    | arrayPod ct es => simp [goodPod] at hgood
    | choicePod a b c d => simp [goodPod] at hgood
    | prop2Pod a b c => simp [goodPod] at hgood

/-- C4 counterexample: the claim fails as stated. The v2 tree
Struct(Int 42) has no identifiers at all, so every identifier is
(vacuously) translatable, yet composing the v2→v0 remap with the v0→v2
remap yields Struct() — remap_to_v2's switch has no case for Int, so the
child is dropped, not copied — and no Choice-None collapse relates
Struct() to Struct(Int 42). -/
theorem c4_counterexample :
    ((remap_to_v2 [] [] [] none (Pod.structPod [Pod.intPod 42])).flatMap
        (remap_from_v2 [] [])).map collapse = [Pod.structPod []] ∧
    collapse (Pod.structPod [Pod.intPod 42]) =
      Pod.structPod [Pod.intPod 42] ∧
    Pod.structPod ([] : List Pod) ≠ Pod.structPod [Pod.intPod 42] := by
  refine ⟨rfl, rfl, ?_⟩
  intro h
  simp at h

/-- C4 amended: on the surviving fragment — trees of translatable Ids,
Structs of such trees, and non-Command Objects with translatable swapped
headers whose bodies are zero-flag properties with surviving values
(Format objects carrying their media properties first, in goodFormatBody's
shape) — composing the v2→v0 remap with the v0→v2 remap is the identity
modulo collapsing Choice nodes of type None to their single value.
Outside the fragment the composition loses data: scalar and Array pods at
stream positions are dropped, property and choice flags are zeroed, and
Command objects lose their object type. -/
theorem c4_amended_roundtrip (m : ClientTypes) (tm : TypeTable)
    (root : List TypeInfo) (info : Option (List TypeInfo)) (T : Pod)
    (h : goodPod m tm root info T = true) :
    ((remap_to_v2 m tm root info T).flatMap (remap_from_v2 m tm)).map
      collapse = [collapse T] :=
  roundPod_aux m tm root (sizeOf T) info T (Nat.le_refl _) h

/-- Witness for C4 amended: a Struct holding a generic object with one
Choice-None property and a bare Id, against a two-row table whose names
and ids make every identifier round-trip. -/
theorem c4_amended_roundtrip_witness :
    goodPod [(0, 0), (1, 1)]
        [⟨"a", some "N5", 5⟩, ⟨"b", some "Obj9", 9⟩]
        [TypeInfo.mk 9 "Obj9" (some [TypeInfo.mk 5 "N5" none])] none
        (Pod.structPod [Pod.objectPod 9 5
          [Pod.prop2Pod 5 0
            (Pod.choicePod SPA_CHOICE_None 0 (Pod.intPod 42) [])],
          Pod.idPod 5]) = true ∧
    ((remap_to_v2 [(0, 0), (1, 1)]
        [⟨"a", some "N5", 5⟩, ⟨"b", some "Obj9", 9⟩]
        [TypeInfo.mk 9 "Obj9" (some [TypeInfo.mk 5 "N5" none])] none
        (Pod.structPod [Pod.objectPod 9 5
          [Pod.prop2Pod 5 0
            (Pod.choicePod SPA_CHOICE_None 0 (Pod.intPod 42) [])],
          Pod.idPod 5])).flatMap
      (remap_from_v2 [(0, 0), (1, 1)]
        [⟨"a", some "N5", 5⟩, ⟨"b", some "Obj9", 9⟩])).map collapse =
      [Pod.structPod [Pod.objectPod 9 5 [Pod.prop2Pod 5 0 (Pod.intPod 42)],
        Pod.idPod 5]] := by
  constructor
  · rfl
  · rw [c4_amended_roundtrip [(0, 0), (1, 1)]
      [⟨"a", some "N5", 5⟩, ⟨"b", some "Obj9", 9⟩]
      [TypeInfo.mk 9 "Obj9" (some [TypeInfo.mk 5 "N5" none])] none
      (Pod.structPod [Pod.objectPod 9 5
        [Pod.prop2Pod 5 0
          (Pod.choicePod SPA_CHOICE_None 0 (Pod.intPod 42) [])],
        Pod.idPod 5]) rfl]
    rfl

end PipewireV0
